import Mathlib

/-!
Verification development for the 8-ball pool shot core: a shallow
embedding of the physics simulator (the most complete variant of
physics.ts) and of the shared rules engine (rules.ts, utils.ts,
constants.ts), with theorems settling the frozen claims about them.

Numbers: the TypeScript source computes with IEEE doubles; the embedding
idealises them as real numbers, keeping every formula of the source
verbatim (sqrt, division, powers included).
-/

set_option maxHeartbeats 1000000

open Classical

noncomputable section

/-! ## Vector math (utils.ts) -/

structure Vec2 where
  x : ℝ
  y : ℝ

def vec2Add (a b : Vec2) : Vec2 := ⟨a.x + b.x, a.y + b.y⟩

def vec2Sub (a b : Vec2) : Vec2 := ⟨a.x - b.x, a.y - b.y⟩

def vec2Scale (v : Vec2) (s : ℝ) : Vec2 := ⟨v.x * s, v.y * s⟩

def vec2Length (v : Vec2) : ℝ := Real.sqrt (v.x * v.x + v.y * v.y)

def vec2LengthSq (v : Vec2) : ℝ := v.x * v.x + v.y * v.y

def vec2Normalize (v : Vec2) : Vec2 :=
  if vec2Length v = 0 then ⟨0, 0⟩ else ⟨v.x / vec2Length v, v.y / vec2Length v⟩

def vec2Dot (a b : Vec2) : ℝ := a.x * b.x + a.y * b.y

def vec2Distance (a b : Vec2) : ℝ := vec2Length (vec2Sub a b)

/-! ## Ball and game state types (types.ts) -/

inductive BallId where
  | cue : BallId
  | num : Nat → BallId
deriving DecidableEq

/-- parseInt applied to a ball id string: a numbered ball parses to its
number, the string cue parses to NaN (modelled as none; every numeric
comparison against NaN in the source is false, matched below). -/
def ballNum : BallId → Option Nat
  | .cue => none
  | .num n => some n

inductive BallGroup where
  | SOLIDS : BallGroup
  | STRIPES : BallGroup
deriving DecidableEq

structure BallState where
  id : BallId
  pos : Vec2
  vel : Vec2
  inPlay : Bool

inductive GamePhase where
  | AWAITING_BREAK : GamePhase
  | AIMING : GamePhase
  | SIMULATING : GamePhase
  | BALL_IN_HAND : GamePhase
  | FINISHED : GamePhase
deriving DecidableEq

inductive Seat where
  | one : Seat
  | two : Seat
deriving DecidableEq

structure GroupAssignments where
  seat1Group : Option BallGroup
  seat2Group : Option BallGroup
deriving DecidableEq

inductive FoulType where
  | SCRATCH : FoulType
  | WRONG_BALL_FIRST : FoulType
  | NO_RAIL : FoulType
  | NO_CONTACT : FoulType
  | EARLY_8_POCKET : FoulType
  | CUE_OFF_TABLE : FoulType
deriving DecidableEq

structure ShotSummary where
  firstContact : Option BallId
  pocketedBalls : List BallId
  scratch : Bool
  foul : Option FoulType
  foulReason : Option String
  turnChanged : Bool
  gameOver : Bool
  winner : Option Seat
  pocketIndices : List (BallId × Nat)

structure TableState where
  balls : List BallState
  pocketed : List BallId
  groups : GroupAssignments
  openTable : Bool
  turnSeat : Seat
  phase : GamePhase
  ballInHand : Bool
  ballInHandAnywhere : Bool
  winningSeat : Option Seat
  lastShotSummary : Option ShotSummary

structure ShotParams where
  angle : ℝ
  power : ℝ
  spinX : ℝ
  spinY : ℝ

/-! ## Table and physics constants (constants.ts) -/

namespace TABLE

def WIDTH : ℝ := 2.54

def HEIGHT : ℝ := 1.27

def CUSHION : ℝ := 0.05

def BALL_RADIUS : ℝ := 0.028575

def POCKET_RADIUS : ℝ := 0.055

def HEAD_STRING_X : ℝ := 0.635

def FOOT_SPOT_X : ℝ := 1.905

def FOOT_SPOT_Y : ℝ := 0.635

end TABLE

def POCKETS : List Vec2 :=
  [ ⟨TABLE.CUSHION, TABLE.CUSHION⟩,
    ⟨TABLE.WIDTH / 2, TABLE.CUSHION - 0.01⟩,
    ⟨TABLE.WIDTH - TABLE.CUSHION, TABLE.CUSHION⟩,
    ⟨TABLE.CUSHION, TABLE.HEIGHT - TABLE.CUSHION⟩,
    ⟨TABLE.WIDTH / 2, TABLE.HEIGHT - TABLE.CUSHION + 0.01⟩,
    ⟨TABLE.WIDTH - TABLE.CUSHION, TABLE.HEIGHT - TABLE.CUSHION⟩ ]

namespace PHYSICS

def TIME_STEP : ℝ := 1 / 240

def KEYFRAME_INTERVAL : ℝ := 33

def CUSHION_RESTITUTION : ℝ := 0.8

def BALL_RESTITUTION : ℝ := 0.95

def SLIDING_FRICTION_COEFF : ℝ := 0.2

def ROLLING_FRICTION_COEFF : ℝ := 0.015

def GRAVITY : ℝ := 9.81

def ROLLING_TRANSITION_SPEED : ℝ := 0.5

def MIN_VELOCITY : ℝ := 0.008

def POWER_TO_VELOCITY : ℝ := 8.0

def POWER_EXPONENT : ℝ := 1.3

def POCKET_MOUTH_RADIUS : ℝ := 0.072

def POCKET_COMMIT_RADIUS : ℝ := 0.046

def POCKET_PULL_STRENGTH : ℝ := 14.0

def MAX_FRAMES : Nat := 30000

def SETTLE_FRAMES : Nat := 10

end PHYSICS

/-! ## Group helpers (utils.ts) -/

def getOpponentSeat : Seat → Seat
  | .one => .two
  | .two => .one

def getOpponentGroup : BallGroup → BallGroup
  | .SOLIDS => .STRIPES
  | .STRIPES => .SOLIDS

def getPlayerGroup (state : TableState) (seat : Seat) : Option BallGroup :=
  match seat with
  | .one => state.groups.seat1Group
  | .two => state.groups.seat2Group

/-- The group parameter of getRemainingBalls and isGroupCleared is declared
in utils.ts as BallGroup, but the physics module and canShoot8Ball call
isGroupCleared with the shooter's seat number instead; at run time the
JavaScript comparison group === SOLIDS is then simply false. GroupArg
records the value actually passed: either a genuine group or a seat. -/
inductive GroupArg where
  | group : BallGroup → GroupArg
  | seat : Seat → GroupArg

/-- The JavaScript strict comparison group === SOLIDS: true only for the
actual SOLIDS group value, false for STRIPES and for any seat number. -/
def GroupArg.strictEqSolids : GroupArg → Bool
  | .group .SOLIDS => true
  | _ => false

def getRemainingBalls (state : TableState) (group : GroupArg) : List BallId :=
  ((state.balls.filter
      (fun b => b.inPlay && !(decide (b.id = BallId.cue)) && !(decide (b.id = BallId.num 8)))).filter
    (fun b =>
      match ballNum b.id with
      | some n => if group.strictEqSolids then decide (n ≤ 7) else decide (9 ≤ n)
      | none => false)).map (fun b => b.id)

def isGroupCleared (state : TableState) (group : GroupArg) : Bool :=
  decide ((getRemainingBalls state group).length = 0)

/-- Replace the first element satisfying p by its image under f, modelling
an in-place mutation of the object returned by Array.prototype.find. -/
def updateFirst (p : α → Bool) (f : α → α) : List α → List α
  | [] => []
  | a :: as => if p a then f a :: as else a :: updateFirst p f as

/-! ## Rules engine (rules.ts)

In the source, applyRules starts from a shallow copy of its input state,
so the balls array, the pocketed array and the summary object stay shared
by reference with the caller's objects; the in-place mutations performed
on them (ball field writes, Array.prototype.splice) are therefore visible
through the input state and the caller's summary as well. The embedding
threads those shared pieces explicitly and reports, next to the value the
function returns, the contents of the caller's aliased objects after the
call (inputAfter, summaryAfter). -/

structure BreakRes where
  phase : GamePhase
  winningSeat : Option Seat
  balls : List BallState
  pocketed : List BallId
  summary : ShotSummary

def handleBreakResult (state : TableState) (summary : ShotSummary) : BreakRes :=
  let summary :=
    if summary.firstContact = none then
      { summary with foul := some .NO_CONTACT,
                     foulReason := some ("Illegal break - no ball contacted"),
                     turnChanged := true }
    else summary
  if BallId.num 8 ∈ summary.pocketedBalls then
    if summary.scratch then
      let w := getOpponentSeat state.turnSeat
      { phase := .FINISHED, winningSeat := some w, balls := state.balls,
        pocketed := state.pocketed,
        summary := { summary with gameOver := true, winner := some w } }
    else
      match state.balls.find? (fun b => decide (b.id = BallId.num 8)) with
      | some _ =>
        { phase := .AIMING, winningSeat := state.winningSeat,
          balls := updateFirst (fun b => decide (b.id = BallId.num 8))
            (fun b => { b with inPlay := true, pos := ⟨1.905, 0.635⟩ }) state.balls,
          pocketed := state.pocketed.erase (BallId.num 8),
          summary := { summary with
            pocketedBalls := summary.pocketedBalls.erase (BallId.num 8) } }
      | none =>
        { phase := .AIMING, winningSeat := state.winningSeat, balls := state.balls,
          pocketed := state.pocketed, summary := summary }
  else
    { phase := .AIMING, winningSeat := state.winningSeat, balls := state.balls,
      pocketed := state.pocketed, summary := summary }

def handleGroupAssignment (state : TableState) (summary : ShotSummary) :
    GroupAssignments × Bool :=
  let pocketedNon8 := summary.pocketedBalls.filter
    (fun i => !(decide (i = BallId.cue)) && !(decide (i = BallId.num 8)))
  if pocketedNon8.length = 0 then (state.groups, state.openTable)
  else
    let pocketedSolids := pocketedNon8.filter
      (fun i => match ballNum i with
        | some n => decide (1 ≤ n) && decide (n ≤ 7)
        | none => false)
    let pocketedStripes := pocketedNon8.filter
      (fun i => match ballNum i with
        | some n => decide (9 ≤ n) && decide (n ≤ 15)
        | none => false)
    let assignedGroup : Option BallGroup :=
      if 0 < pocketedSolids.length ∧ pocketedStripes.length = 0 then some .SOLIDS
      else if 0 < pocketedStripes.length ∧ pocketedSolids.length = 0 then some .STRIPES
      else if 0 < pocketedSolids.length ∧ 0 < pocketedStripes.length then
        match pocketedNon8.head? with
        | some firstPocketed =>
          (match ballNum firstPocketed with
           | some n => if n ≤ 7 then some .SOLIDS else some .STRIPES
           | none => some .STRIPES)
        | none => none
      else none
    match assignedGroup with
    | some g =>
      (if state.turnSeat = Seat.one then
        ⟨some g, some (getOpponentGroup g)⟩
       else ⟨some (getOpponentGroup g), some g⟩, false)
    | none => (state.groups, state.openTable)

structure ApplyOutcome where
  result : TableState
  inputAfter : TableState
  summaryAfter : ShotSummary

def applyRulesFull (state : TableState) (summary : ShotSummary) : ApplyOutcome :=
  let br : BreakRes :=
    if state.phase = GamePhase.AWAITING_BREAK then handleBreakResult state summary
    else { phase := state.phase, winningSeat := state.winningSeat,
           balls := state.balls, pocketed := state.pocketed, summary := summary }
  let summary1 := br.summary
  let groupsRes :=
    if state.openTable = true ∧ summary1.foul = none then
      handleGroupAssignment state summary1
    else (state.groups, state.openTable)
  let turnSeat1 :=
    if summary1.turnChanged = true ∧ summary1.gameOver = false then
      getOpponentSeat state.turnSeat
    else state.turnSeat
  let ballsAfterFoul :=
    if summary1.foul ≠ none ∧ summary1.gameOver = false ∧ summary1.scratch = true then
      updateFirst (fun b => decide (b.id = BallId.cue))
        (fun b => { b with inPlay := true }) br.balls
    else br.balls
  let flags :
      Bool × Bool × GamePhase :=
    if summary1.foul ≠ none ∧ summary1.gameOver = false then
      (true,
       decide (summary1.foul = some FoulType.SCRATCH) ||
         decide (state.phase = GamePhase.AWAITING_BREAK),
       GamePhase.BALL_IN_HAND)
    else if summary1.gameOver = false then (false, false, GamePhase.AIMING)
    else (state.ballInHand, state.ballInHandAnywhere, br.phase)
  let phaseFinal := if summary1.gameOver = true then GamePhase.FINISHED else flags.2.2
  let winFinal := if summary1.gameOver = true then summary1.winner else br.winningSeat
  { result :=
      { balls := ballsAfterFoul,
        pocketed := br.pocketed,
        groups := groupsRes.1,
        openTable := groupsRes.2,
        turnSeat := turnSeat1,
        phase := phaseFinal,
        ballInHand := flags.1,
        ballInHandAnywhere := flags.2.1,
        winningSeat := winFinal,
        lastShotSummary := some summary1 },
    inputAfter := { state with balls := ballsAfterFoul, pocketed := br.pocketed },
    summaryAfter := summary1 }

/-! ## Physics simulator (physics.ts, most complete variant) -/

structure SimBall where
  id : BallId
  pos : Vec2
  vel : Vec2
  inPlay : Bool
  spin : Vec2
  hasHitBall : Bool
  isRolling : Bool

inductive KFEventType where
  | ball_ball : KFEventType
  | ball_cushion : KFEventType
  | ball_pocket : KFEventType
deriving DecidableEq

structure KeyFrameEvent where
  type : KFEventType
  ballId : BallId
  otherBallId : Option BallId
  speed : ℝ
  pos : Vec2

structure KFBall where
  id : BallId
  pos : Vec2
  inPlay : Bool

structure KeyFrame where
  time : ℝ
  balls : List KFBall
  events : List KeyFrameEvent

def MIN_RAIL_VELOCITY : ℝ := 0.1

def SPIN_FOLLOW_DRAW : ℝ := 0.35

def SPIN_SIDE_CUSHION : ℝ := 0.25

def SPIN_THROW : ℝ := 0.04

def SPIN_DECAY : ℝ := 0.98

def applyFollowDrawSpin (cueBall : SimBall) : SimBall :=
  let spinY := cueBall.spin.y
  if |spinY| < 0.01 then cueBall
  else
    let speed := vec2Length cueBall.vel
    if speed < 0.01 then cueBall
    else
      let dir := vec2Normalize cueBall.vel
      let adjustment := speed * spinY * SPIN_FOLLOW_DRAW
      { cueBall with vel := vec2Add cueBall.vel (vec2Scale dir adjustment) }

def applyThrowEffect (cueBall objectBall : SimBall) : SimBall :=
  let spinX := cueBall.spin.x
  if |spinX| < 0.01 then objectBall
  else
    let objSpeed := vec2Length objectBall.vel
    if objSpeed < 0.01 then objectBall
    else
      let dir := vec2Normalize objectBall.vel
      let tangent : Vec2 := ⟨-dir.y, dir.x⟩
      let deflection := objSpeed * spinX * SPIN_THROW
      { objectBall with vel := vec2Add objectBall.vel (vec2Scale tangent deflection) }

def checkBallBallCollision (b1 b2 : SimBall) : Prop :=
  vec2Distance b1.pos b2.pos < TABLE.BALL_RADIUS * 2

def resolveBallBallCollision (b1 b2 : SimBall) : SimBall × SimBall :=
  let normal := vec2Normalize (vec2Sub b2.pos b1.pos)
  let relVel := vec2Sub b1.vel b2.vel
  let velAlongNormal := vec2Dot relVel normal
  if velAlongNormal < 0 then (b1, b2)
  else
    let impulse := velAlongNormal * PHYSICS.BALL_RESTITUTION
    let b1a := { b1 with vel := vec2Sub b1.vel (vec2Scale normal impulse) }
    let b2a := { b2 with vel := vec2Add b2.vel (vec2Scale normal impulse) }
    let overlap := TABLE.BALL_RADIUS * 2 - vec2Distance b1a.pos b2a.pos
    if overlap > 0 then
      let separation := vec2Scale normal (overlap / 2 + 0.001)
      ({ b1a with pos := vec2Sub b1a.pos separation },
       { b2a with pos := vec2Add b2a.pos separation })
    else (b1a, b2a)

inductive Side where
  | left : Side
  | right : Side
  | top : Side
  | bottom : Side

def isInPocketZone (ball : SimBall) (side : Side) : Prop :=
  ∃ pk ∈ POCKETS, ¬ (vec2Distance ball.pos pk > PHYSICS.POCKET_MOUTH_RADIUS) ∧
    (match side with
     | .left => pk.x ≤ TABLE.CUSHION + 0.01
     | .right => TABLE.WIDTH - TABLE.CUSHION - 0.01 ≤ pk.x
     | .top => pk.y ≤ TABLE.CUSHION + 0.01
     | .bottom => TABLE.HEIGHT - TABLE.CUSHION - 0.01 ≤ pk.y)

inductive Axis where
  | x : Axis
  | y : Axis

def applySideSpinOnCushion (ball : SimBall) (axis : Axis) : SimBall :=
  let spinX := ball.spin.x
  if |spinX| < 0.01 then ball
  else
    let speed := vec2Length ball.vel
    let deflection := speed * spinX * SPIN_SIDE_CUSHION
    match axis with
    | .y => { ball with vel := ⟨ball.vel.x, ball.vel.y + deflection⟩ }
    | .x => { ball with vel := ⟨ball.vel.x + deflection, ball.vel.y⟩ }

def handleCushionCollision (ball0 : SimBall) : SimBall × Bool :=
  let r := TABLE.BALL_RADIUS
  let cushion := TABLE.CUSHION
  let step1 : SimBall × Bool :=
    if ball0.pos.x - r < cushion ∧ ¬ isInPocketZone ball0 Side.left then
      let b := { ball0 with pos := ⟨cushion + r, ball0.pos.y⟩,
                            vel := ⟨-ball0.vel.x * PHYSICS.CUSHION_RESTITUTION, ball0.vel.y⟩ }
      let b := if b.id = BallId.cue then applySideSpinOnCushion b Axis.y else b
      (b, true)
    else (ball0, false)
  let b1 := step1.1
  let step2 : SimBall × Bool :=
    if b1.pos.x + r > TABLE.WIDTH - cushion ∧ ¬ isInPocketZone b1 Side.right then
      let b := { b1 with pos := ⟨TABLE.WIDTH - cushion - r, b1.pos.y⟩,
                         vel := ⟨-b1.vel.x * PHYSICS.CUSHION_RESTITUTION, b1.vel.y⟩ }
      let b := if b.id = BallId.cue then applySideSpinOnCushion b Axis.y else b
      (b, true)
    else (b1, step1.2)
  let b2 := step2.1
  let step3 : SimBall × Bool :=
    if b2.pos.y - r < cushion ∧ ¬ isInPocketZone b2 Side.top then
      let b := { b2 with pos := ⟨b2.pos.x, cushion + r⟩,
                         vel := ⟨b2.vel.x, -b2.vel.y * PHYSICS.CUSHION_RESTITUTION⟩ }
      let b := if b.id = BallId.cue then applySideSpinOnCushion b Axis.x else b
      (b, true)
    else (b2, step2.2)
  let b3 := step3.1
  if b3.pos.y + r > TABLE.HEIGHT - cushion ∧ ¬ isInPocketZone b3 Side.bottom then
    let b := { b3 with pos := ⟨b3.pos.x, TABLE.HEIGHT - cushion - r⟩,
                       vel := ⟨b3.vel.x, -b3.vel.y * PHYSICS.CUSHION_RESTITUTION⟩ }
    let b := if b.id = BallId.cue then applySideSpinOnCushion b Axis.x else b
    (b, true)
  else (b3, step3.2)

def pocketLoop (i : Nat) (pks : List Vec2) (ball : SimBall) : SimBall × Option Nat :=
  match pks with
  | [] => (ball, none)
  | pk :: rest =>
    let dx := pk.x - ball.pos.x
    let dy := pk.y - ball.pos.y
    let dist := Real.sqrt (dx * dx + dy * dy)
    if dist < PHYSICS.POCKET_COMMIT_RADIUS then (ball, some i)
    else if dist < PHYSICS.POCKET_MOUTH_RADIUS then
      let normalizedDist := dist / PHYSICS.POCKET_MOUTH_RADIUS
      let pullStrength := PHYSICS.POCKET_PULL_STRENGTH * (1 - normalizedDist)
      let pullDir : Vec2 := ⟨dx / dist, dy / dist⟩
      pocketLoop (i + 1) rest
        { ball with vel := vec2Add ball.vel (vec2Scale pullDir (pullStrength * PHYSICS.TIME_STEP)) }
    else pocketLoop (i + 1) rest ball

def handlePocketGravity (ball : SimBall) : SimBall × Option Nat :=
  pocketLoop 0 POCKETS ball

def createKeyframe (timeMs : ℝ) (balls : List SimBall) : KeyFrame :=
  { time := timeMs,
    balls := balls.map (fun b => { id := b.id, pos := ⟨b.pos.x, b.pos.y⟩, inPlay := b.inPlay }),
    events := [] }

structure SimState where
  balls : List SimBall
  pocketedBalls : List BallId
  pocketIndices : List (BallId × Nat)
  firstContact : Option BallId
  scratch : Bool
  railAfterContact : Bool
  keyframes : List KeyFrame
  lastKeyframeTime : ℝ
  pendingEvents : List KeyFrameEvent
  time : ℝ
  settledFrames : Nat

def emitKeyframePhase (s : SimState) : SimState :=
  if (s.time - s.lastKeyframeTime) * 1000 ≥ PHYSICS.KEYFRAME_INTERVAL then
    { s with
      keyframes := s.keyframes ++
        [{ createKeyframe (s.time * 1000) s.balls with events := s.pendingEvents }],
      pendingEvents := [],
      lastKeyframeTime := s.time }
  else s

def integrateBall (ball0 : SimBall) : SimBall :=
  if ball0.inPlay = false then ball0
  else
    let ball1 := { ball0 with pos := vec2Add ball0.pos (vec2Scale ball0.vel PHYSICS.TIME_STEP) }
    let ballSpeed := vec2Length ball1.vel
    let ball2 :=
      if ballSpeed > PHYSICS.MIN_VELOCITY then
        let ballr :=
          if ball1.isRolling = false ∧ ballSpeed < PHYSICS.ROLLING_TRANSITION_SPEED then
            { ball1 with isRolling := true }
          else ball1
        let frictionCoeff :=
          if ballr.isRolling = true then PHYSICS.ROLLING_FRICTION_COEFF
          else PHYSICS.SLIDING_FRICTION_COEFF
        let decel := frictionCoeff * PHYSICS.GRAVITY * PHYSICS.TIME_STEP
        let newSpeed := max 0 (ballSpeed - decel)
        let ballv :=
          if newSpeed = 0 then { ballr with vel := ⟨0, 0⟩ }
          else { ballr with vel := vec2Scale ballr.vel (newSpeed / ballSpeed) }
        { ballv with spin := vec2Scale ballv.spin SPIN_DECAY }
      else ball1
    if vec2LengthSq ball2.vel < PHYSICS.MIN_VELOCITY * PHYSICS.MIN_VELOCITY then
      { ball2 with vel := ⟨0, 0⟩ }
    else ball2

def integratePhase (s : SimState) : SimState := { s with balls := s.balls.map integrateBall }

def pairIndexList (n : Nat) : List (Nat × Nat) :=
  (List.range n).flatMap (fun i => ((List.range n).drop (i + 1)).map (fun j => (i, j)))

def collideStep (s : SimState) (ij : Nat × Nat) : SimState :=
  match s.balls.get? ij.1, s.balls.get? ij.2 with
  | some b1, some b2 =>
    if b1.inPlay = false ∨ b2.inPlay = false then s
    else if checkBallBallCollision b1 b2 then
      let impactSpeed := vec2Length (vec2Sub b1.vel b2.vel)
      let contactPos : Vec2 := ⟨(b1.pos.x + b2.pos.x) / 2, (b1.pos.y + b2.pos.y) / 2⟩
      let res := resolveBallBallCollision b1 b2
      let pair2 : SimBall × SimBall :=
        if res.1.id = BallId.cue ∨ res.2.id = BallId.cue then
          if res.1.id = BallId.cue then (res.1, applyThrowEffect res.1 res.2)
          else (applyThrowEffect res.2 res.1, res.2)
        else res
      let ev : KeyFrameEvent :=
        { type := .ball_ball, ballId := b1.id, otherBallId := some b2.id,
          speed := impactSpeed, pos := contactPos }
      let fc : Option BallId :=
        match s.firstContact with
        | none =>
          if b1.id = BallId.cue then some b2.id
          else if b2.id = BallId.cue then some b1.id else none
        | some c => some c
      let pair3 : SimBall × SimBall :=
        if pair2.1.id = BallId.cue ∧ pair2.1.hasHitBall = false then
          (applyFollowDrawSpin { pair2.1 with hasHitBall := true }, pair2.2)
        else if pair2.2.id = BallId.cue ∧ pair2.2.hasHitBall = false then
          (pair2.1, applyFollowDrawSpin { pair2.2 with hasHitBall := true })
        else pair2
      { s with balls := (s.balls.set ij.1 pair3.1).set ij.2 pair3.2,
               pendingEvents := s.pendingEvents ++ [ev],
               firstContact := fc }
    else s
  | _, _ => s

def ballBallPhase (s : SimState) : SimState :=
  (pairIndexList s.balls.length).foldl collideStep s

def pocketStep (s : SimState) (i : Nat) : SimState :=
  match s.balls.get? i with
  | none => s
  | some ball =>
    if ball.inPlay = false then s
    else
      let pr := handlePocketGravity ball
      match pr.2 with
      | none => { s with balls := s.balls.set i pr.1 }
      | some idx =>
        let ball3 := { pr.1 with inPlay := false, vel := ⟨0, 0⟩ }
        let pkPos := (POCKETS.get? idx).getD ⟨0, 0⟩
        { s with
          balls := s.balls.set i ball3,
          pocketedBalls := s.pocketedBalls ++ [ball3.id],
          pocketIndices := s.pocketIndices ++ [(ball3.id, idx)],
          pendingEvents := s.pendingEvents ++
            [{ type := .ball_pocket, ballId := ball3.id, otherBallId := none,
               speed := vec2Length ball3.vel, pos := ⟨pkPos.x, pkPos.y⟩ }],
          scratch := s.scratch || decide (ball3.id = BallId.cue) }

def pocketPhase (s : SimState) : SimState :=
  (List.range s.balls.length).foldl pocketStep s

def cushionStep (s : SimState) (i : Nat) : SimState :=
  match s.balls.get? i with
  | none => s
  | some ball =>
    if ball.inPlay = false then s
    else
      let cushionSpeed := vec2Length ball.vel
      let hc := handleCushionCollision ball
      if hc.2 = true then
        let ball3 := { hc.1 with isRolling := false }
        { s with
          balls := s.balls.set i ball3,
          pendingEvents := s.pendingEvents ++
            [{ type := .ball_cushion, ballId := ball3.id, otherBallId := none,
               speed := cushionSpeed, pos := ⟨ball3.pos.x, ball3.pos.y⟩ }],
          railAfterContact := s.railAfterContact ||
            (decide (cushionSpeed > MIN_RAIL_VELOCITY) && decide (¬ (s.firstContact = none))) }
      else { s with balls := s.balls.set i hc.1 }

def cushionPhase (s : SimState) : SimState :=
  (List.range s.balls.length).foldl cushionStep s

def simFrame (s : SimState) : SimState :=
  cushionPhase (pocketPhase (ballBallPhase (integratePhase (emitKeyframePhase s))))

def allStopped (balls : List SimBall) : Prop :=
  ∀ b ∈ balls.filter (fun b => b.inPlay),
    vec2LengthSq b.vel < PHYSICS.MIN_VELOCITY * PHYSICS.MIN_VELOCITY

def runLoop : Nat → Nat → SimState → SimState
  | 0, _, s => s
  | fuel + 1, frame, s =>
    let s1 := { s with time := (frame : ℝ) * PHYSICS.TIME_STEP }
    if allStopped s1.balls then
      if PHYSICS.SETTLE_FRAMES ≤ s1.settledFrames + 1 then
        { s1 with settledFrames := s1.settledFrames + 1 }
      else runLoop fuel (frame + 1) (simFrame { s1 with settledFrames := s1.settledFrames + 1 })
    else runLoop fuel (frame + 1) (simFrame { s1 with settledFrames := 0 })

def buildFinalState (originalState : TableState) (balls : List SimBall)
    (newlyPocketed : List BallId) : TableState :=
  { originalState with
    balls := balls.map (fun b =>
      { id := b.id, pos := ⟨b.pos.x, b.pos.y⟩, vel := ⟨0, 0⟩, inPlay := b.inPlay }),
    pocketed := originalState.pocketed ++ newlyPocketed }

def buildShotSummary (originalState finalState : TableState) (firstContact : Option BallId)
    (pocketedBalls : List BallId) (scratch : Bool) (railAfterContact : Bool)
    (pocketIndices : List (BallId × Nat)) : ShotSummary :=
  let playerGroup := getPlayerGroup originalState originalState.turnSeat
  let base : Option FoulType × Option String :=
    if scratch = true then (some .SCRATCH, some ("Cue ball was pocketed"))
    else if firstContact = none then
      (some .NO_CONTACT, some ("Cue ball did not hit any ball"))
    else if railAfterContact = false ∧ pocketedBalls.length = 0 then
      (some .NO_RAIL, some ("No ball hit a rail after contact"))
    else if originalState.openTable = false then
      let blk1 : Option FoulType × Option String :=
        match playerGroup, firstContact with
        | some g, some c =>
          if ¬ (c = BallId.num 8) then
            let hitSolid : Bool :=
              match ballNum c with
              | some n => decide (1 ≤ n) && decide (n ≤ 7)
              | none => false
            let hitStripe : Bool :=
              match ballNum c with
              | some n => decide (9 ≤ n) && decide (n ≤ 15)
              | none => false
            if g = BallGroup.SOLIDS ∧ hitStripe = true then
              (some .WRONG_BALL_FIRST, some ("Hit stripe ball first when assigned solids"))
            else if g = BallGroup.STRIPES ∧ hitSolid = true then
              (some .WRONG_BALL_FIRST, some ("Hit solid ball first when assigned stripes"))
            else (none, none)
          else (none, none)
        | _, _ => (none, none)
      match playerGroup, firstContact with
      | some _, some c =>
        if c = BallId.num 8 ∧
            isGroupCleared originalState (GroupArg.seat originalState.turnSeat) = false then
          (some .WRONG_BALL_FIRST, some ("Hit 8-ball first before clearing group"))
        else blk1
      | _, _ => blk1
    else (none, none)
  let withEarly : Option FoulType × Option String :=
    if BallId.num 8 ∈ pocketedBalls then
      match playerGroup with
      | some g =>
        let remainingPlayerBalls := finalState.balls.filter (fun b =>
          if b.inPlay = false ∨ b.id = BallId.cue ∨ b.id = BallId.num 8 then false
          else
            match ballNum b.id with
            | some n =>
              if g = BallGroup.SOLIDS then decide (1 ≤ n ∧ n ≤ 7)
              else decide (9 ≤ n ∧ n ≤ 15)
            | none => false)
        if 0 < remainingPlayerBalls.length then
          (some .EARLY_8_POCKET, some ("Pocketed 8-ball before clearing group"))
        else base
      | none => base
    else base
  let turnChanged : Bool :=
    decide (¬ (withEarly.1 = none)) ||
      decide ((pocketedBalls.filter (fun i => !(decide (i = BallId.cue)))).length = 0)
  let go : Bool × Option Seat :=
    if BallId.num 8 ∈ pocketedBalls then
      if withEarly.1 = some FoulType.EARLY_8_POCKET ∨ scratch = true then
        (true, some (getOpponentSeat originalState.turnSeat))
      else (true, some originalState.turnSeat)
    else (false, none)
  { firstContact := firstContact, pocketedBalls := pocketedBalls, scratch := scratch,
    foul := withEarly.1, foulReason := withEarly.2, turnChanged := turnChanged,
    gameOver := go.1, winner := go.2, pocketIndices := pocketIndices }

structure SimulationResult where
  finalState : TableState
  keyframes : List KeyFrame
  summary : ShotSummary

def cloneBalls (tableState : TableState) : List SimBall :=
  tableState.balls.map (fun b =>
    { id := b.id, pos := ⟨b.pos.x, b.pos.y⟩, vel := ⟨0, 0⟩, inPlay := b.inPlay,
      spin := ⟨0, 0⟩, hasHitBall := false, isRolling := false })

def initBalls (tableState : TableState) (shotParams : ShotParams) : List SimBall :=
  let speed := shotParams.power ^ PHYSICS.POWER_EXPONENT * PHYSICS.POWER_TO_VELOCITY
  updateFirst (fun b => decide (b.id = BallId.cue))
    (fun b => { b with
      vel := ⟨Real.cos shotParams.angle * speed, Real.sin shotParams.angle * speed⟩,
      spin := ⟨shotParams.spinX, shotParams.spinY⟩ })
    (cloneBalls tableState)

def initSimState (balls : List SimBall) : SimState :=
  { balls := balls, pocketedBalls := [], pocketIndices := [], firstContact := none,
    scratch := false, railAfterContact := false, keyframes := [], lastKeyframeTime := 0,
    pendingEvents := [], time := 0, settledFrames := 0 }

def simulateShot (tableState : TableState) (shotParams : ShotParams) :
    Except String SimulationResult :=
  let balls := cloneBalls tableState
  match balls.find? (fun b => decide (b.id = BallId.cue)) with
  | none => .error ("Cue ball not in play")
  | some cueBall =>
    if cueBall.inPlay = false then .error ("Cue ball not in play")
    else
      let final := runLoop PHYSICS.MAX_FRAMES 0 (initSimState (initBalls tableState shotParams))
      let finalKf : KeyFrame :=
        { createKeyframe (final.time * 1000) final.balls with events := final.pendingEvents }
      let finalState := buildFinalState tableState final.balls final.pocketedBalls
      let summary := buildShotSummary tableState finalState final.firstContact
        final.pocketedBalls final.scratch final.railAfterContact final.pocketIndices
      .ok { finalState := finalState, keyframes := final.keyframes ++ [finalKf],
            summary := summary }

/-! ## Characterisations used by the theorems -/

/-- The break-respot branch of handleBreakResult fires: break phase, the
8-ball pocketed without a scratch, and the 8-ball present in the state. -/
def breakRespotHappens (state : TableState) (summary : ShotSummary) : Prop :=
  state.phase = GamePhase.AWAITING_BREAK ∧ BallId.num 8 ∈ summary.pocketedBalls ∧
    summary.scratch = false ∧
    (state.balls.find? (fun b => decide (b.id = BallId.num 8))).isSome = true

def breakBallsAfter (state : TableState) (summary : ShotSummary) : List BallState :=
  if breakRespotHappens state summary then
    updateFirst (fun b => decide (b.id = BallId.num 8))
      (fun b => { b with inPlay := true, pos := ⟨1.905, 0.635⟩ }) state.balls
  else state.balls

def breakPocketedAfter (state : TableState) (summary : ShotSummary) : List BallId :=
  if breakRespotHappens state summary then state.pocketed.erase (BallId.num 8)
  else state.pocketed

/-- The cue-reset mutation of applyRules fires: after the break
adjustments the summary carries a foul, the game is not over, and the
shot was a scratch (the foul and game-over conditions are written here in
terms of the original summary and state). -/
def scratchResetHappens (state : TableState) (summary : ShotSummary) : Prop :=
  (summary.foul ≠ none ∨
      (state.phase = GamePhase.AWAITING_BREAK ∧ summary.firstContact = none)) ∧
    summary.gameOver = false ∧
    ¬ (state.phase = GamePhase.AWAITING_BREAK ∧ BallId.num 8 ∈ summary.pocketedBalls ∧
        summary.scratch = true) ∧
    summary.scratch = true

/-! ## Resting-state side conditions used by the settle theorems -/

/-- The ball's disc lies inside the cushion boundaries, so no cushion
clamp of handleCushionCollision fires. -/
def inCushionBounds (p : Vec2) : Prop :=
  TABLE.CUSHION + TABLE.BALL_RADIUS ≤ p.x ∧
    p.x + TABLE.BALL_RADIUS ≤ TABLE.WIDTH - TABLE.CUSHION ∧
    TABLE.CUSHION + TABLE.BALL_RADIUS ≤ p.y ∧
    p.y + TABLE.BALL_RADIUS ≤ TABLE.HEIGHT - TABLE.CUSHION

/-- The point is at or beyond the mouth radius of every pocket, so the
pocket gravity well neither pulls nor captures a ball resting there. -/
def farFromPockets (p : Vec2) : Prop :=
  ∀ pk ∈ POCKETS,
    PHYSICS.POCKET_MOUTH_RADIUS ≤
      Real.sqrt ((pk.x - p.x) * (pk.x - p.x) + (pk.y - p.y) * (pk.y - p.y))

/-- A ball the frame step leaves untouched: at rest and, if in play,
inside the cushions and away from every pocket mouth. -/
def dormantBall (b : SimBall) : Prop :=
  b.vel = (⟨0, 0⟩ : Vec2) ∧
    (b.inPlay = true → inCushionBounds b.pos ∧ farFromPockets b.pos)

def dormantBalls (balls : List SimBall) : Prop := ∀ b ∈ balls, dormantBall b

/-- No two in-play balls overlap (list-order pairwise). -/
def separatedBalls (balls : List SimBall) : Prop :=
  balls.Pairwise (fun a b => a.inPlay = true → b.inPlay = true →
    TABLE.BALL_RADIUS * 2 ≤ vec2Distance a.pos b.pos)

/-! ## Concrete scenario states used as witnesses and counterexamples -/

def ballAt (i : BallId) (px py : ℝ) (inp : Bool) : BallState :=
  { id := i, pos := ⟨px, py⟩, vel := ⟨0, 0⟩, inPlay := inp }

/-- A table state for the wrong-ball-first check: table not open, seat 1
to shoot, seat 1 assigned SOLIDS, every solid already off the table, one
stripe and the 8-ball still in play. -/
def c2State : TableState :=
  { balls := [ballAt BallId.cue 0.3 0.635 true, ballAt (BallId.num 9) 1.8 0.635 true,
              ballAt (BallId.num 8) 1.2 0.635 true],
    pocketed := [BallId.num 1, BallId.num 2, BallId.num 3, BallId.num 4, BallId.num 5,
                 BallId.num 6, BallId.num 7],
    groups := ⟨some BallGroup.SOLIDS, some BallGroup.STRIPES⟩, openTable := false,
    turnSeat := Seat.one, phase := GamePhase.AIMING, ballInHand := false,
    ballInHandAnywhere := false, winningSeat := none, lastShotSummary := none }

/-- Summary of a shot in c2State whose first contact is the 8-ball, with
nothing pocketed, no scratch, and a rail hit after contact. -/
def c2Summary : ShotSummary :=
  buildShotSummary c2State c2State (some (BallId.num 8)) [] false true []

/-- A non-break state whose cue ball is not in play (it was pocketed). -/
def c3State : TableState :=
  { balls := [ballAt BallId.cue 0.5 0.5 false], pocketed := [BallId.cue],
    groups := ⟨none, none⟩, openTable := false, turnSeat := Seat.one,
    phase := GamePhase.AIMING, ballInHand := false, ballInHandAnywhere := false,
    winningSeat := none, lastShotSummary := none }

/-- A scratch-foul summary, as the simulator produces for a scratch with
no 8-ball involvement. -/
def c3Summary : ShotSummary :=
  { firstContact := none, pocketedBalls := [BallId.cue], scratch := true,
    foul := some FoulType.SCRATCH, foulReason := some ("Cue ball was pocketed"),
    turnChanged := true, gameOver := false, winner := none, pocketIndices := [] }

/-- A break-phase state right after a break shot that pocketed the 8-ball
(and one object ball stayed up): the 8-ball is off the table and on the
pocketed list, the table is open, no groups are assigned. -/
def c6State : TableState :=
  { balls := [ballAt BallId.cue 0.635 0.635 true, ballAt (BallId.num 8) 1.0 1.0 false,
              ballAt (BallId.num 1) 2.0 0.7 true],
    pocketed := [BallId.num 8], groups := ⟨none, none⟩, openTable := true,
    turnSeat := Seat.one, phase := GamePhase.AWAITING_BREAK, ballInHand := false,
    ballInHandAnywhere := false, winningSeat := none, lastShotSummary := none }

/-- The summary the simulator derives for that break: first contact made,
8-ball pocketed, no scratch. -/
def c6Summary : ShotSummary :=
  buildShotSummary c6State c6State (some (BallId.num 1)) [BallId.num 8] false true
    [(BallId.num 8, 1)]

/-- A lone in-play cue ball resting at the centre of the table: inside the
cushion bounds and far from every pocket mouth. -/
def c9GoodState : TableState :=
  { balls := [ballAt BallId.cue 1.27 0.635 true], pocketed := [], groups := ⟨none, none⟩,
    openTable := true, turnSeat := Seat.one, phase := GamePhase.AIMING,
    ballInHand := false, ballInHandAnywhere := false, winningSeat := none,
    lastShotSummary := none }

/-- A lone in-play cue ball resting with its edge past the left cushion
line (x = 0.03 < cushion + radius): at rest, yet the cushion clamp moves it. -/
def c9OobState : TableState :=
  { balls := [ballAt BallId.cue 0.03 0.635 true], pocketed := [], groups := ⟨none, none⟩,
    openTable := true, turnSeat := Seat.one, phase := GamePhase.AIMING,
    ballInHand := false, ballInHandAnywhere := false, winningSeat := none,
    lastShotSummary := none }

def zeroPowerShot : ShotParams := { angle := 0, power := 0, spinX := 0, spinY := 0 }

/-- A lone in-play cue ball directly above the top-middle pocket mouth. -/
def c1State : TableState :=
  { balls := [ballAt BallId.cue 1.27 0.087 true], pocketed := [], groups := ⟨none, none⟩,
    openTable := true, turnSeat := Seat.one, phase := GamePhase.AIMING,
    ballInHand := false, ballInHandAnywhere := false, winningSeat := none,
    lastShotSummary := none }

/-- Full power straight down toward the top-middle pocket. -/
def c1Shot : ShotParams := { angle := -(Real.pi / 2), power := 1, spinX := 0, spinY := 0 }

/-- A moving cue ball one ball-diameter to the left of a resting object
ball, travelling straight at it. -/
def c8Ball1 : SimBall :=
  { id := BallId.cue, pos := ⟨0, 0⟩, vel := ⟨1, 0⟩, inPlay := true, spin := ⟨0, 0⟩,
    hasHitBall := false, isRolling := false }

def c8Ball2 : SimBall :=
  { id := BallId.num 1, pos := ⟨1, 0⟩, vel := ⟨0, 0⟩, inPlay := true, spin := ⟨0, 0⟩,
    hasHitBall := false, isRolling := false }

/-- The successful-shot result simulateShot builds from the loop's final
state (the body of its ok branch, abstracted over that final state). -/
def simResultOf (ts : TableState) (final : SimState) : SimulationResult :=
  { finalState := buildFinalState ts final.balls final.pocketedBalls,
    keyframes := final.keyframes ++
      [{ createKeyframe (final.time * 1000) final.balls with events := final.pendingEvents }],
    summary := buildShotSummary ts (buildFinalState ts final.balls final.pocketedBalls)
      final.firstContact final.pocketedBalls final.scratch final.railAfterContact
      final.pocketIndices }

/-- The loop state an all-dormant table reaches: the balls untouched, one
in-loop keyframe (emitted at frame 8, the first frame at which
8 * TIME_STEP * 1000 reaches the 33 ms keyframe interval), and the settle
counter saturated at SETTLE_FRAMES after the break at frame 9. -/
def settledRunState (bs : List SimBall) : SimState :=
  { balls := bs, pocketedBalls := [], pocketIndices := [], firstContact := none,
    scratch := false, railAfterContact := false,
    keyframes := [{ createKeyframe (((8 : ℕ) : ℝ) * PHYSICS.TIME_STEP * 1000) bs with
      events := ([] : List KeyFrameEvent) }],
    lastKeyframeTime := ((8 : ℕ) : ℝ) * PHYSICS.TIME_STEP,
    pendingEvents := [], time := ((9 : ℕ) : ℝ) * PHYSICS.TIME_STEP,
    settledFrames := PHYSICS.SETTLE_FRAMES }

/-- The cue ball of c1State right after the shot is applied: straight down
at 8 m/s (power 1 through the 1.3 exponent curve times POWER_TO_VELOCITY). -/
def c1MovingBall : SimBall :=
  { id := BallId.cue, pos := ⟨1.27, 0.087⟩, vel := ⟨0, -8⟩, inPlay := true,
    spin := ⟨0, 0⟩, hasHitBall := false, isRolling := false }

/-- The cue ball after the first integration step: advanced one time step
and slowed by sliding friction (decel 0.2 * 9.81 / 240 = 327/40000). -/
def c1MovedBall : SimBall :=
  { id := BallId.cue, pos := ⟨1.27, 161 / 3000⟩, vel := ⟨0, -(319673 / 40000)⟩,
    inPlay := true, spin := ⟨0, 0⟩, hasHitBall := false, isRolling := false }

/-- The cue ball after the top-middle pocket captures it in the same frame:
taken off the table with its velocity zeroed before the event is recorded. -/
def c1PocketedBall : SimBall :=
  { id := BallId.cue, pos := ⟨1.27, 161 / 3000⟩, vel := ⟨0, 0⟩,
    inPlay := false, spin := ⟨0, 0⟩, hasHitBall := false, isRolling := false }

/-- The ball_pocket event that capture records: its speed field reads the
ball's velocity after it was already zeroed, so it is 0. -/
def c1PocketEvent : KeyFrameEvent :=
  { type := KFEventType.ball_pocket, ballId := BallId.cue, otherBallId := none,
    speed := 0, pos := ⟨TABLE.WIDTH / 2, TABLE.CUSHION - 0.01⟩ }

/-- The loop state of the c1 run after its first frame: the cue captured by
pocket 1, scratch set, the pocket event pending. -/
def c1AfterFrameState : SimState :=
  { balls := [c1PocketedBall], pocketedBalls := [BallId.cue],
    pocketIndices := [(BallId.cue, 1)], firstContact := none, scratch := true,
    railAfterContact := false, keyframes := [], lastKeyframeTime := 0,
    pendingEvents := [c1PocketEvent], time := ((0 : ℕ) : ℝ) * PHYSICS.TIME_STEP,
    settledFrames := 0 }

/-- The final loop state of the c1 run: the pocket event is flushed into the
frame-8 keyframe and the loop breaks at frame 10 with ten settled frames. -/
def c1FinalRunState : SimState :=
  { balls := [c1PocketedBall], pocketedBalls := [BallId.cue],
    pocketIndices := [(BallId.cue, 1)], firstContact := none, scratch := true,
    railAfterContact := false,
    keyframes := [{ createKeyframe (((8 : ℕ) : ℝ) * PHYSICS.TIME_STEP * 1000)
        [c1PocketedBall] with events := [c1PocketEvent] }],
    lastKeyframeTime := ((8 : ℕ) : ℝ) * PHYSICS.TIME_STEP,
    pendingEvents := [], time := ((10 : ℕ) : ℝ) * PHYSICS.TIME_STEP,
    settledFrames := PHYSICS.SETTLE_FRAMES }

/-- The out-of-bounds resting cue ball of c9OobState as the simulator
initialises it (zero power leaves the velocity at zero). -/
def oobBall : SimBall :=
  { id := BallId.cue, pos := ⟨0.03, 0.635⟩, vel := ⟨0, 0⟩, inPlay := true,
    spin := ⟨0, 0⟩, hasHitBall := false, isRolling := false }

/-- The same ball after the first frame's cushion pass: clamped to the left
cushion line even though it never moved. -/
def oobClampedBall : SimBall :=
  { id := BallId.cue, pos := ⟨TABLE.CUSHION + TABLE.BALL_RADIUS, 0.635⟩, vel := ⟨0, 0⟩,
    inPlay := true, spin := ⟨0, 0⟩, hasHitBall := false, isRolling := false }

/-- The cushion event that clamp records during the first frame. -/
def oobCushionEvent : KeyFrameEvent :=
  { type := KFEventType.ball_cushion, ballId := BallId.cue, otherBallId := none,
    speed := 0, pos := ⟨TABLE.CUSHION + TABLE.BALL_RADIUS, 0.635⟩ }

/-- The loop state of the c9OobState run after its first frame. -/
def oobAfterFrameState : SimState :=
  { balls := [oobClampedBall], pocketedBalls := [], pocketIndices := [],
    firstContact := none, scratch := false, railAfterContact := false,
    keyframes := [], lastKeyframeTime := 0, pendingEvents := [oobCushionEvent],
    time := ((0 : ℕ) : ℝ) * PHYSICS.TIME_STEP, settledFrames := 1 }

/-- The final loop state of the c9OobState run: the clamped ball at rest, the
cushion event flushed into the frame-8 keyframe, the loop broken at frame 9. -/
def oobFinalRunState : SimState :=
  { balls := [oobClampedBall], pocketedBalls := [], pocketIndices := [],
    firstContact := none, scratch := false, railAfterContact := false,
    keyframes := [{ createKeyframe (((8 : ℕ) : ℝ) * PHYSICS.TIME_STEP * 1000)
        [oobClampedBall] with events := [oobCushionEvent] }],
    lastKeyframeTime := ((8 : ℕ) : ℝ) * PHYSICS.TIME_STEP,
    pendingEvents := [], time := ((9 : ℕ) : ℝ) * PHYSICS.TIME_STEP,
    settledFrames := PHYSICS.SETTLE_FRAMES }

end

/-! # Theorems -/

/-! ## Normalisation facts -/

theorem vec2Normalize_zero_or_unit (v : Vec2) :
    vec2Normalize v = ⟨0, 0⟩ ∨
      (vec2Normalize v).x * (vec2Normalize v).x +
        (vec2Normalize v).y * (vec2Normalize v).y = 1 := by
  unfold vec2Normalize
  by_cases h : vec2Length v = 0
  · left; rw [if_pos h]
  · right
    rw [if_neg h]
    have hS : 0 ≤ v.x * v.x + v.y * v.y := by
      nlinarith [mul_self_nonneg v.x, mul_self_nonneg v.y]
    have hL : vec2Length v * vec2Length v = v.x * v.x + v.y * v.y :=
      Real.mul_self_sqrt hS
    show v.x / vec2Length v * (v.x / vec2Length v) +
        v.y / vec2Length v * (v.y / vec2Length v) = 1
    field_simp
    linarith [hL]

/-- C10: resolveBallBallCollision conserves total momentum: the vector sum
of the two balls' velocities after the call equals the vector sum before
the call, for every pair of balls (the impulse subtracted from one ball is
exactly the impulse added to the other). -/
theorem claim_C10_momentum_conserved (b1 b2 : SimBall) :
    vec2Add (resolveBallBallCollision b1 b2).1.vel (resolveBallBallCollision b1 b2).2.vel =
      vec2Add b1.vel b2.vel := by
  simp only [resolveBallBallCollision]
  split_ifs
  · rfl
  · simp only [vec2Add, vec2Sub, vec2Scale, Vec2.mk.injEq]
    constructor <;> ring
  · simp only [vec2Add, vec2Sub, vec2Scale, Vec2.mk.injEq]
    constructor <;> ring

/-- C8: whenever the relative velocity along the contact normal is
non-negative, resolveBallBallCollision does not increase the total kinetic
energy (sum of squared speeds), and with BALL_RESTITUTION = 0.95 strictly
below one the energy strictly decreases whenever that normal relative
velocity is nonzero. -/
theorem resolveBallBallCollision_vel (b1 b2 : SimBall)
    (h : ¬ vec2Dot (vec2Sub b1.vel b2.vel) (vec2Normalize (vec2Sub b2.pos b1.pos)) < 0) :
    (resolveBallBallCollision b1 b2).1.vel =
      vec2Sub b1.vel (vec2Scale (vec2Normalize (vec2Sub b2.pos b1.pos))
        (vec2Dot (vec2Sub b1.vel b2.vel) (vec2Normalize (vec2Sub b2.pos b1.pos)) *
          PHYSICS.BALL_RESTITUTION)) ∧
    (resolveBallBallCollision b1 b2).2.vel =
      vec2Add b2.vel (vec2Scale (vec2Normalize (vec2Sub b2.pos b1.pos))
        (vec2Dot (vec2Sub b1.vel b2.vel) (vec2Normalize (vec2Sub b2.pos b1.pos)) *
          PHYSICS.BALL_RESTITUTION)) := by
  simp only [resolveBallBallCollision]
  rw [if_neg h]
  split_ifs <;> exact ⟨rfl, rfl⟩

/-- C8: whenever the relative velocity along the contact normal is
non-negative, resolveBallBallCollision does not increase the total kinetic
energy (sum of squared speeds), and with BALL_RESTITUTION = 0.95 strictly
below one the energy strictly decreases whenever that normal relative
velocity is nonzero. -/
theorem claim_C8_energy_nonincreasing (b1 b2 : SimBall)
    (h : 0 ≤ vec2Dot (vec2Sub b1.vel b2.vel) (vec2Normalize (vec2Sub b2.pos b1.pos))) :
    (vec2LengthSq (resolveBallBallCollision b1 b2).1.vel +
        vec2LengthSq (resolveBallBallCollision b1 b2).2.vel ≤
      vec2LengthSq b1.vel + vec2LengthSq b2.vel) ∧
    (vec2Dot (vec2Sub b1.vel b2.vel) (vec2Normalize (vec2Sub b2.pos b1.pos)) ≠ 0 →
      vec2LengthSq (resolveBallBallCollision b1 b2).1.vel +
          vec2LengthSq (resolveBallBallCollision b1 b2).2.vel <
        vec2LengthSq b1.vel + vec2LengthSq b2.vel) := by
  have hbranch : ¬ vec2Dot (vec2Sub b1.vel b2.vel) (vec2Normalize (vec2Sub b2.pos b1.pos)) < 0 :=
    not_lt.2 h
  obtain ⟨e1, e2⟩ := resolveBallBallCollision_vel b1 b2 hbranch
  rcases vec2Normalize_zero_or_unit (vec2Sub b2.pos b1.pos) with hz | hu
  · rw [hz] at e1 e2
    rw [e1, e2, hz]
    constructor
    · apply le_of_eq
      simp only [vec2Dot, vec2Scale, vec2Sub, vec2Add, vec2LengthSq]
      ring
    · intro hne
      simp [vec2Dot] at hne
  · rw [e1, e2]
    set N := vec2Normalize (vec2Sub b2.pos b1.pos) with hN
    simp only [vec2Dot, vec2Sub, vec2Add, vec2Scale, vec2LengthSq,
      PHYSICS.BALL_RESTITUTION]
    constructor
    · nlinarith [hu, sq_nonneg ((b1.vel.x - b2.vel.x) * N.x + (b1.vel.y - b2.vel.y) * N.y)]
    · intro hne
      have hpos : 0 < ((b1.vel.x - b2.vel.x) * N.x + (b1.vel.y - b2.vel.y) * N.y) ^ 2 :=
        (sq_nonneg _).lt_of_ne (Ne.symm (pow_ne_zero 2 hne))
      nlinarith [hu, hpos]

/-- C8 witness: a head-on unit-speed collision between two balls one
diameter apart has non-negative normal relative velocity, and the theorem
applies to it. -/
theorem claim_C8_energy_witness :
    0 ≤ vec2Dot (vec2Sub c8Ball1.vel c8Ball2.vel) (vec2Normalize (vec2Sub c8Ball2.pos c8Ball1.pos)) ∧
    vec2LengthSq (resolveBallBallCollision c8Ball1 c8Ball2).1.vel +
        vec2LengthSq (resolveBallBallCollision c8Ball1 c8Ball2).2.vel ≤
      vec2LengthSq c8Ball1.vel + vec2LengthSq c8Ball2.vel := by
  have hdot : vec2Dot (vec2Sub c8Ball1.vel c8Ball2.vel)
      (vec2Normalize (vec2Sub c8Ball2.pos c8Ball1.pos)) = 1 := by
    norm_num [c8Ball1, c8Ball2, vec2Dot, vec2Sub, vec2Normalize, vec2Length, Real.sqrt_one]
  have h0 : (0 : ℝ) ≤ vec2Dot (vec2Sub c8Ball1.vel c8Ball2.vel)
      (vec2Normalize (vec2Sub c8Ball2.pos c8Ball1.pos)) := by rw [hdot]; norm_num
  exact ⟨h0, (claim_C8_energy_nonincreasing c8Ball1 c8Ball2 h0).1⟩

/-- C2: counter-evidence. In c2State the shooter (seat 1, SOLIDS) has
cleared their whole group, so by the claim the 8-ball is a legal first
contact; yet the code charges WRONG_BALL_FIRST, because buildShotSummary
passes the seat number where isGroupCleared expects a group, making the
check test the stripes instead of the shooter's group. -/
theorem claim_C2_code_eval :
    getRemainingBalls c2State (GroupArg.group BallGroup.SOLIDS) = [] ∧
    isGroupCleared c2State (GroupArg.seat Seat.one) = false ∧
    c2Summary.foul = some FoulType.WRONG_BALL_FIRST := by
  refine ⟨by decide, by decide, by decide⟩

/-- C3: counterexample. Applying the rules to a scratch summary mutates the
caller's input state: the cue ball of the shared balls array has its inPlay
flag set to true, so the input is not left unchanged. -/
theorem claim_C3_counterexample :
    (applyRulesFull c3State c3Summary).inputAfter.balls.map (fun b => b.inPlay) = [true] ∧
    c3State.balls.map (fun b => b.inPlay) = [false] ∧
    ([true] : List Bool) ≠ [false] := by
  refine ⟨by decide, by decide, by decide⟩

/-! ## handleBreakResult field equations -/

theorem handleBreakResult_summary_scratch (st : TableState) (sm : ShotSummary) :
    (handleBreakResult st sm).summary.scratch = sm.scratch := by
  unfold handleBreakResult
  cases hfind : st.balls.find? (fun b => decide (b.id = BallId.num 8)) <;>
    simp only [hfind] <;> split_ifs <;> rfl

theorem handleBreakResult_summary_foul (st : TableState) (sm : ShotSummary) :
    (handleBreakResult st sm).summary.foul =
      (if sm.firstContact = none then some FoulType.NO_CONTACT else sm.foul) := by
  unfold handleBreakResult
  cases hfind : st.balls.find? (fun b => decide (b.id = BallId.num 8)) <;>
    simp only [hfind] <;> split_ifs <;> rfl

theorem handleBreakResult_summary_turnChanged (st : TableState) (sm : ShotSummary) :
    (handleBreakResult st sm).summary.turnChanged =
      (if sm.firstContact = none then true else sm.turnChanged) := by
  unfold handleBreakResult
  cases hfind : st.balls.find? (fun b => decide (b.id = BallId.num 8)) <;>
    simp only [hfind] <;> split_ifs <;> rfl

theorem handleBreakResult_summary_gameOver (st : TableState) (sm : ShotSummary) :
    (handleBreakResult st sm).summary.gameOver =
      (if BallId.num 8 ∈ sm.pocketedBalls ∧ sm.scratch = true then true else sm.gameOver) := by
  unfold handleBreakResult
  cases hfind : st.balls.find? (fun b => decide (b.id = BallId.num 8)) <;>
    simp only [hfind] <;> split_ifs <;> first | rfl | tauto

theorem handleBreakResult_pocketed (st : TableState) (sm : ShotSummary) :
    (handleBreakResult st sm).pocketed =
      (if BallId.num 8 ∈ sm.pocketedBalls ∧ sm.scratch = false ∧
          (st.balls.find? (fun b => decide (b.id = BallId.num 8))).isSome = true
        then st.pocketed.erase (BallId.num 8)
        else st.pocketed) := by
  unfold handleBreakResult
  cases hfind : st.balls.find? (fun b => decide (b.id = BallId.num 8)) <;>
    simp only [hfind, Option.isSome_none, Option.isSome_some] <;>
    split_ifs <;> first | rfl | tauto | simp_all

theorem handleBreakResult_balls (st : TableState) (sm : ShotSummary) :
    (handleBreakResult st sm).balls =
      (if BallId.num 8 ∈ sm.pocketedBalls ∧ sm.scratch = false ∧
          (st.balls.find? (fun b => decide (b.id = BallId.num 8))).isSome = true
        then updateFirst (fun b => decide (b.id = BallId.num 8))
          (fun b => { b with inPlay := true, pos := ⟨1.905, 0.635⟩ }) st.balls
        else st.balls) := by
  unfold handleBreakResult
  cases hfind : st.balls.find? (fun b => decide (b.id = BallId.num 8)) <;>
    simp only [hfind, Option.isSome_none, Option.isSome_some] <;>
    split_ifs <;> first | rfl | tauto | simp_all

/-! ## buildShotSummary field facts -/

theorem buildShotSummary_pocketedBalls (o f : TableState) (fc : Option BallId)
    (pb : List BallId) (sc rc : Bool) (pi2 : List (BallId × Nat)) :
    (buildShotSummary o f fc pb sc rc pi2).pocketedBalls = pb := rfl

theorem buildShotSummary_turnChanged_eq (o f : TableState) (fc : Option BallId)
    (pb : List BallId) (sc rc : Bool) (pi2 : List (BallId × Nat)) :
    (buildShotSummary o f fc pb sc rc pi2).turnChanged =
      (decide (¬ (buildShotSummary o f fc pb sc rc pi2).foul = none) ||
        decide ((pb.filter (fun i => !(decide (i = BallId.cue)))).length = 0)) := rfl

theorem ite_pair_fst_same {α β : Type} (c : Prop) [Decidable c] (a : α) (x y : β) :
    (if c then (a, x) else (a, y)).1 = a := by
  split <;> rfl

theorem buildShotSummary_foul_ne_none_of_fc_none (o f : TableState) (pb : List BallId)
    (sc rc : Bool) (pi2 : List (BallId × Nat)) :
    (buildShotSummary o f none pb sc rc pi2).foul ≠ none := by
  unfold buildShotSummary
  cases hg : getPlayerGroup o o.turnSeat <;> simp only [hg] <;> split_ifs <;>
    first
      | exact Option.some_ne_none _
      | exact absurd rfl ‹¬(none : Option BallId) = none›

theorem buildShotSummary_gameOver_of_eight (o f : TableState) (fc : Option BallId)
    (pb : List BallId) (sc rc : Bool) (pi2 : List (BallId × Nat))
    (h8 : BallId.num 8 ∈ pb) :
    (buildShotSummary o f fc pb sc rc pi2).gameOver = true := by
  unfold buildShotSummary
  simp only [if_pos h8]
  exact ite_pair_fst_same _ _ _ _

/-- C6: code evaluation at the failing input. On a break that pockets the
8-ball without a scratch, handleBreakResult does respot the 8-ball to the
foot spot, remove it from both pocketed lists, and aim for phase AIMING;
but the summary's gameOver flag set by buildShotSummary is never cleared,
so applyRules ends the game (phase FINISHED, breaker declared winner)
instead of letting play continue. -/
theorem claim_C6_code_eval :
    c6Summary.gameOver = true ∧
    (handleBreakResult c6State c6Summary).phase = GamePhase.AIMING ∧
    (applyRulesFull c6State c6Summary).result.phase = GamePhase.FINISHED ∧
    (applyRulesFull c6State c6Summary).result.winningSeat = some Seat.one ∧
    (applyRulesFull c6State c6Summary).result.pocketed = ([] : List BallId) ∧
    (applyRulesFull c6State c6Summary).summaryAfter.pocketedBalls = ([] : List BallId) ∧
    ((applyRulesFull c6State c6Summary).result.balls.find?
        (fun b => decide (b.id = BallId.num 8))).map (fun b => b.inPlay) = some true ∧
    ((applyRulesFull c6State c6Summary).result.balls.find?
        (fun b => decide (b.id = BallId.num 8))).map (fun b => b.pos) = some ⟨1.905, 0.635⟩ := by
  refine ⟨by decide, by decide, by decide, by decide, by decide, by decide, by decide, rfl⟩

/-! ## C3 amended: exactly where applyRules mutates its input -/

theorem applyRulesFull_inputAfter_balls_eq (state : TableState) (summary : ShotSummary) :
    (applyRulesFull state summary).inputAfter.balls =
      (if (if state.phase = GamePhase.AWAITING_BREAK then handleBreakResult state summary
           else { phase := state.phase, winningSeat := state.winningSeat, balls := state.balls,
                  pocketed := state.pocketed, summary := summary }).summary.foul ≠ none ∧
          (if state.phase = GamePhase.AWAITING_BREAK then handleBreakResult state summary
           else { phase := state.phase, winningSeat := state.winningSeat, balls := state.balls,
                  pocketed := state.pocketed, summary := summary }).summary.gameOver = false ∧
          (if state.phase = GamePhase.AWAITING_BREAK then handleBreakResult state summary
           else { phase := state.phase, winningSeat := state.winningSeat, balls := state.balls,
                  pocketed := state.pocketed, summary := summary }).summary.scratch = true
        then updateFirst (fun b => decide (b.id = BallId.cue))
          (fun b => { b with inPlay := true })
          (if state.phase = GamePhase.AWAITING_BREAK then handleBreakResult state summary
           else { phase := state.phase, winningSeat := state.winningSeat, balls := state.balls,
                  pocketed := state.pocketed, summary := summary }).balls
        else
          (if state.phase = GamePhase.AWAITING_BREAK then handleBreakResult state summary
           else { phase := state.phase, winningSeat := state.winningSeat, balls := state.balls,
                  pocketed := state.pocketed, summary := summary }).balls) := rfl

/-- C3 amended: applyRules never replaces the input state's scalar fields
(phase, groups, turn seat, open-table and ball-in-hand flags, winner, last
summary); but through the shared arrays it mutates the input's balls when a
scratch foul without game over is processed (first cue ball set in play)
and, on a break respot, respots the 8-ball and removes the 8 from the
input's pocketed list; otherwise balls and pocketed are returned unchanged. -/
theorem claim_C3_applyRules_mutation (state : TableState) (summary : ShotSummary) :
    (applyRulesFull state summary).inputAfter.phase = state.phase ∧
    (applyRulesFull state summary).inputAfter.groups = state.groups ∧
    (applyRulesFull state summary).inputAfter.turnSeat = state.turnSeat ∧
    (applyRulesFull state summary).inputAfter.openTable = state.openTable ∧
    (applyRulesFull state summary).inputAfter.ballInHand = state.ballInHand ∧
    (applyRulesFull state summary).inputAfter.ballInHandAnywhere = state.ballInHandAnywhere ∧
    (applyRulesFull state summary).inputAfter.winningSeat = state.winningSeat ∧
    (applyRulesFull state summary).inputAfter.lastShotSummary = state.lastShotSummary ∧
    (applyRulesFull state summary).inputAfter.pocketed = breakPocketedAfter state summary ∧
    (applyRulesFull state summary).inputAfter.balls =
      (if scratchResetHappens state summary then
        updateFirst (fun b => decide (b.id = BallId.cue)) (fun b => { b with inPlay := true })
          (breakBallsAfter state summary)
      else breakBallsAfter state summary) := by
  refine ⟨rfl, rfl, rfl, rfl, rfl, rfl, rfl, rfl, ?_, ?_⟩
  · show (if state.phase = GamePhase.AWAITING_BREAK then handleBreakResult state summary
        else { phase := state.phase, winningSeat := state.winningSeat, balls := state.balls,
               pocketed := state.pocketed, summary := summary }).pocketed =
      breakPocketedAfter state summary
    unfold breakPocketedAfter breakRespotHappens
    by_cases hph : state.phase = GamePhase.AWAITING_BREAK
    · rw [if_pos hph, handleBreakResult_pocketed]
      split_ifs <;> first | rfl | tauto
    · rw [if_neg hph, if_neg (by tauto)]
  · rw [applyRulesFull_inputAfter_balls_eq]
    unfold breakBallsAfter breakRespotHappens scratchResetHappens
    by_cases hph : state.phase = GamePhase.AWAITING_BREAK
    · rw [if_pos hph,
        handleBreakResult_summary_foul, handleBreakResult_summary_gameOver,
        handleBreakResult_summary_scratch, handleBreakResult_balls]
      split_ifs <;> first | rfl | tauto | simp_all
    · rw [if_neg hph]
      split_ifs <;> first | rfl | tauto | simp_all

/-! ## C4: the pocketed list only grows, except the break respot -/

theorem buildFinalState_pocketed (o : TableState) (bs : List SimBall) (np : List BallId) :
    (buildFinalState o bs np).pocketed = o.pocketed ++ np := rfl

/-- C4: simulateShot's final state carries the input's pocketed list with
this shot's newly pocketed ids appended (never removing entries), and
applyRules returns the state's pocketed list unchanged except in the one
break-respot case, where the 8 is removed. -/
theorem claim_C4_pocketed_superset :
    (∀ (ts : TableState) (sp : ShotParams) (res : SimulationResult),
        simulateShot ts sp = Except.ok res →
        res.finalState.pocketed = ts.pocketed ++ res.summary.pocketedBalls) ∧
    (∀ (st : TableState) (sm : ShotSummary),
        (applyRulesFull st sm).result.pocketed =
          if st.phase = GamePhase.AWAITING_BREAK ∧ BallId.num 8 ∈ sm.pocketedBalls ∧
              sm.scratch = false ∧
              (st.balls.find? (fun b => decide (b.id = BallId.num 8))).isSome = true
          then st.pocketed.erase (BallId.num 8)
          else st.pocketed) := by
  constructor
  · intro ts sp res hok
    unfold simulateShot at hok
    cases hfind : (cloneBalls ts).find? (fun b => decide (b.id = BallId.cue)) with
    | none =>
      simp only [hfind] at hok
      exact Except.noConfusion hok
    | some cb =>
      simp only [hfind] at hok
      by_cases hp : cb.inPlay = false
      · rw [if_pos hp] at hok; simp at hok
      · rw [if_neg hp] at hok
        have h := Except.ok.inj hok
        rw [← h]
        rfl
  · intro st sm
    show (if st.phase = GamePhase.AWAITING_BREAK then handleBreakResult st sm
          else { phase := st.phase, winningSeat := st.winningSeat, balls := st.balls,
                 pocketed := st.pocketed, summary := sm }).pocketed = _
    by_cases hph : st.phase = GamePhase.AWAITING_BREAK
    · rw [if_pos hph, handleBreakResult_pocketed]
      split_ifs <;> first | rfl | tauto
    · rw [if_neg hph, if_neg (by tauto)]

/-! ## C5: the turn-change rule -/

theorem applyRulesFull_result_turnSeat (st : TableState) (sm : ShotSummary) :
    (applyRulesFull st sm).result.turnSeat =
      (if (if st.phase = GamePhase.AWAITING_BREAK then handleBreakResult st sm
           else { phase := st.phase, winningSeat := st.winningSeat, balls := st.balls,
                  pocketed := st.pocketed, summary := sm }).summary.turnChanged = true ∧
          (if st.phase = GamePhase.AWAITING_BREAK then handleBreakResult st sm
           else { phase := st.phase, winningSeat := st.winningSeat, balls := st.balls,
                  pocketed := st.pocketed, summary := sm }).summary.gameOver = false
        then getOpponentSeat st.turnSeat else st.turnSeat) := rfl

/-- C5: a simulated shot's summary has turnChanged true exactly when a foul
occurred or no non-cue ball was pocketed, and applyRules flips the turn
seat to the opponent exactly when turnChanged holds and the game is not
over. -/
theorem claim_C5_turn_change (o f : TableState) (fc : Option BallId) (pb : List BallId)
    (sc rc : Bool) (pi2 : List (BallId × Nat)) (st : TableState) :
    ((buildShotSummary o f fc pb sc rc pi2).turnChanged = true ↔
      ((buildShotSummary o f fc pb sc rc pi2).foul ≠ none ∨
        pb.filter (fun i => !(decide (i = BallId.cue))) = [])) ∧
    ((applyRulesFull st (buildShotSummary o f fc pb sc rc pi2)).result.turnSeat =
      if (buildShotSummary o f fc pb sc rc pi2).turnChanged = true ∧
          (buildShotSummary o f fc pb sc rc pi2).gameOver = false
        then getOpponentSeat st.turnSeat else st.turnSeat) := by
  constructor
  · rw [buildShotSummary_turnChanged_eq]
    simp [List.length_eq_zero]
  · rw [applyRulesFull_result_turnSeat]
    by_cases hph : st.phase = GamePhase.AWAITING_BREAK
    · rw [if_pos hph, handleBreakResult_summary_turnChanged, handleBreakResult_summary_gameOver]
      have hfceq : (buildShotSummary o f fc pb sc rc pi2).firstContact = fc := rfl
      have hpbeq : (buildShotSummary o f fc pb sc rc pi2).pocketedBalls = pb := rfl
      have hsceq : (buildShotSummary o f fc pb sc rc pi2).scratch = sc := rfl
      rw [hfceq, hpbeq, hsceq]
      by_cases hfc : fc = none
      · have h1 : (buildShotSummary o f fc pb sc rc pi2).turnChanged = true := by
          subst hfc
          rw [buildShotSummary_turnChanged_eq]
          simp [buildShotSummary_foul_ne_none_of_fc_none o f pb sc rc pi2]
        rw [if_pos hfc, h1]
        by_cases h8sc : BallId.num 8 ∈ pb ∧ sc = true
        · rw [if_pos h8sc, buildShotSummary_gameOver_of_eight o f fc pb sc rc pi2 h8sc.1]
        · rw [if_neg h8sc]
      · rw [if_neg hfc]
        by_cases h8sc : BallId.num 8 ∈ pb ∧ sc = true
        · rw [if_pos h8sc, buildShotSummary_gameOver_of_eight o f fc pb sc rc pi2 h8sc.1]
        · rw [if_neg h8sc]
    · rw [if_neg hph]

/-! ## C7: error exactly when the cue ball is not in play -/

theorem find?_cue_cloneBalls (l : List BallState) :
    (l.map (fun b =>
        ({ id := b.id, pos := ⟨b.pos.x, b.pos.y⟩, vel := ⟨0, 0⟩, inPlay := b.inPlay,
           spin := ⟨0, 0⟩, hasHitBall := false, isRolling := false } : SimBall))).find?
      (fun b => decide (b.id = BallId.cue)) =
    (l.find? (fun b => decide (b.id = BallId.cue))).map (fun b =>
      ({ id := b.id, pos := ⟨b.pos.x, b.pos.y⟩, vel := ⟨0, 0⟩, inPlay := b.inPlay,
         spin := ⟨0, 0⟩, hasHitBall := false, isRolling := false } : SimBall)) := by
  induction l with
  | nil => rfl
  | cons a t ih =>
    by_cases hid : a.id = BallId.cue
    · simp [List.find?_cons, hid]
    · simp [List.find?_cons, hid, ih]

/-- C7: simulateShot returns an error exactly when the state's cue ball is
absent or not in play; whenever the cue ball is in play the call returns a
SimulationResult normally (fouls are carried inside the summary, never as
errors). The hypothesis states the data-model invariant that the cue ball
is unique. -/
theorem claim_C7_error_iff (s : TableState) (p : ShotParams)
    (huniq : ∀ b1 ∈ s.balls, ∀ b2 ∈ s.balls,
      b1.id = BallId.cue → b2.id = BallId.cue → b1 = b2) :
    ((∃ e, simulateShot s p = Except.error e) ↔
      ¬ ∃ b ∈ s.balls, b.id = BallId.cue ∧ b.inPlay = true) ∧
    ((∃ b ∈ s.balls, b.id = BallId.cue ∧ b.inPlay = true) →
      ∃ r, simulateShot s p = Except.ok r) := by
  have hform := find?_cue_cloneBalls s.balls
  cases hfind : s.balls.find? (fun b => decide (b.id = BallId.cue)) with
  | none =>
    have hnone : (cloneBalls s).find? (fun b => decide (b.id = BallId.cue)) = none := by
      unfold cloneBalls; rw [hform, hfind]; rfl
    have herr : simulateShot s p = Except.error ("Cue ball not in play") := by
      unfold simulateShot; simp only [hnone]
    have hnocue : ∀ b ∈ s.balls, ¬ b.id = BallId.cue := by
      intro b hb
      have h := List.find?_eq_none.mp hfind b hb
      simpa using h
    constructor
    · constructor
      · rintro - ⟨b, hb, hid, -⟩
        exact hnocue b hb hid
      · intro _
        exact ⟨_, herr⟩
    · rintro ⟨b, hb, hid, -⟩
      exact absurd hid (hnocue b hb)
  | some cb =>
    have hsome : (cloneBalls s).find? (fun b => decide (b.id = BallId.cue)) =
        some { id := cb.id, pos := ⟨cb.pos.x, cb.pos.y⟩, vel := ⟨0, 0⟩, inPlay := cb.inPlay,
               spin := ⟨0, 0⟩, hasHitBall := false, isRolling := false } := by
      unfold cloneBalls; rw [hform, hfind]; rfl
    have hmem : cb ∈ s.balls := List.mem_of_find?_eq_some hfind
    have hid : cb.id = BallId.cue := by
      have h := List.find?_some hfind
      simpa using h
    by_cases hp : cb.inPlay = true
    · have hok : ∃ r, simulateShot s p = Except.ok r := by
        unfold simulateShot
        simp only [hsome]
        rw [if_neg (by simp [hp])]
        exact ⟨_, rfl⟩
      constructor
      · constructor
        · rintro ⟨e, he⟩
          obtain ⟨r, hr⟩ := hok
          rw [he] at hr
          simp at hr
        · intro hcon
          exact absurd ⟨cb, hmem, hid, hp⟩ hcon
      · intro _
        exact hok
    · have hpf : cb.inPlay = false := by simpa using hp
      have herr : simulateShot s p = Except.error ("Cue ball not in play") := by
        unfold simulateShot
        simp only [hsome]
        rw [if_pos (by simp [hpf])]
      have hnone2 : ¬ ∃ b ∈ s.balls, b.id = BallId.cue ∧ b.inPlay = true := by
        rintro ⟨b, hb, hbid, hbp⟩
        have hbe : b = cb := huniq b hb cb hmem hbid hid
        rw [hbe] at hbp
        exact absurd hbp (by simp [hpf])
      constructor
      · constructor
        · intro _
          exact hnone2
        · intro _
          exact ⟨_, herr⟩
      · intro hcon
        exact absurd hcon hnone2

/-- C7 witness: the single-cue-ball centre state has a unique, in-play cue
ball, and the theorem instantiates to it. -/
theorem claim_C7_error_iff_witness :
    ((∃ e, simulateShot c9GoodState zeroPowerShot = Except.error e) ↔
      ¬ ∃ b ∈ c9GoodState.balls, b.id = BallId.cue ∧ b.inPlay = true) ∧
    ((∃ b ∈ c9GoodState.balls, b.id = BallId.cue ∧ b.inPlay = true) →
      ∃ r, simulateShot c9GoodState zeroPowerShot = Except.ok r) :=
  claim_C7_error_iff c9GoodState zeroPowerShot (by
    intro b1 h1 b2 h2 _ _
    simp only [c9GoodState, List.mem_singleton] at h1 h2
    rw [h1, h2])

/-! ## List helpers for the frame-step lemmas -/

theorem set_get?_self (l : List α) (i : Nat) (a : α) (h : l.get? i = some a) :
    l.set i a = l := by
  induction l generalizing i with
  | nil => rfl
  | cons x t ih =>
    cases i with
    | zero =>
      simp only [List.get?] at h
      cases h
      rfl
    | succ j =>
      simp only [List.get?] at h
      simp [List.set, ih j h]

theorem foldl_fixed {α β : Type} (f : α → β → α) (l : List β) (a : α)
    (h : ∀ b ∈ l, f a b = a) : l.foldl f a = a := by
  induction l with
  | nil => rfl
  | cons x t ih =>
    rw [List.foldl_cons, h x (List.mem_cons_self x t)]
    exact ih (fun b hb => h b (List.mem_cons_of_mem x hb))

theorem updateFirst_mem_cases {p : α → Bool} {f : α → α} {l : List α} {b : α}
    (hb : b ∈ updateFirst p f l) : b ∈ l ∨ ∃ a ∈ l, b = f a := by
  induction l with
  | nil => simp [updateFirst] at hb
  | cons x t ih =>
    unfold updateFirst at hb
    by_cases hp : p x
    · rw [if_pos hp] at hb
      rcases List.mem_cons.mp hb with h | h
      · exact Or.inr ⟨x, List.mem_cons_self x t, h⟩
      · exact Or.inl (List.mem_cons_of_mem x h)
    · rw [if_neg hp] at hb
      rcases List.mem_cons.mp hb with h | h
      · exact Or.inl (h ▸ List.mem_cons_self x t)
      · rcases ih h with h2 | ⟨a, ha, hfa⟩
        · exact Or.inl (List.mem_cons_of_mem x h2)
        · exact Or.inr ⟨a, List.mem_cons_of_mem x ha, hfa⟩

theorem pairwise_updateFirst {R : α → α → Prop} (p : α → Bool) (f : α → α) (l : List α)
    (hl : l.Pairwise R)
    (h1 : ∀ a b, R a b → R (f a) b) (h2 : ∀ a b, R a b → R a (f b)) :
    (updateFirst p f l).Pairwise R := by
  induction l with
  | nil => exact List.Pairwise.nil
  | cons x t ih =>
    rcases List.pairwise_cons.mp hl with ⟨hx, ht⟩
    unfold updateFirst
    by_cases hp : p x
    · rw [if_pos hp]
      exact List.pairwise_cons.mpr ⟨fun b hb => h1 x b (hx b hb), ht⟩
    · rw [if_neg hp]
      refine List.pairwise_cons.mpr ⟨?_, ih ht⟩
      intro b hb
      rcases updateFirst_mem_cases hb with h | ⟨a, ha, hfa⟩
      · exact hx b h
      · exact hfa ▸ h2 x a (hx a ha)

theorem map_updateFirst_invariant {p : α → Bool} {f : α → α} {g : α → β} (l : List α)
    (h : ∀ a, g (f a) = g a) : (updateFirst p f l).map g = l.map g := by
  induction l with
  | nil => rfl
  | cons x t ih =>
    unfold updateFirst
    by_cases hp : p x
    · rw [if_pos hp]
      simp [h x]
    · rw [if_neg hp]
      simp [ih]

/-! ## One dormant frame is the identity up to keyframe bookkeeping -/

theorem integrateBall_dormant (b : SimBall) (h : b.vel = (⟨0, 0⟩ : Vec2)) :
    integrateBall b = b := by
  obtain ⟨bid, ⟨px, py⟩, bvel, binp, bspin, bhit, brol⟩ := b
  simp only at h
  subst h
  unfold integrateBall
  by_cases hp : binp = false
  · rw [if_pos hp]
  · rw [if_neg hp]
    norm_num [vec2Add, vec2Scale, vec2Length, vec2LengthSq, Real.sqrt_zero,
      PHYSICS.MIN_VELOCITY]

theorem integratePhase_dormant (s : SimState) (h : ∀ b ∈ s.balls, b.vel = (⟨0, 0⟩ : Vec2)) :
    integratePhase s = s := by
  unfold integratePhase
  have hmap : s.balls.map integrateBall = s.balls := by
    have h2 : ∀ b ∈ s.balls, integrateBall b = b :=
      fun b hb => integrateBall_dormant b (h b hb)
    calc s.balls.map integrateBall = s.balls.map id := List.map_congr_left h2
    _ = s.balls := List.map_id s.balls
  rw [hmap]

theorem emitKeyframePhase_balls (s : SimState) : (emitKeyframePhase s).balls = s.balls := by
  unfold emitKeyframePhase
  split_ifs <;> rfl

theorem emitKeyframePhase_pos (s : SimState)
    (h : (s.time - s.lastKeyframeTime) * 1000 ≥ PHYSICS.KEYFRAME_INTERVAL) :
    emitKeyframePhase s =
      { s with
        keyframes := s.keyframes ++
          [{ createKeyframe (s.time * 1000) s.balls with events := s.pendingEvents }],
        pendingEvents := [],
        lastKeyframeTime := s.time } := by
  unfold emitKeyframePhase
  rw [if_pos h]

theorem emitKeyframePhase_neg (s : SimState)
    (h : ¬ (s.time - s.lastKeyframeTime) * 1000 ≥ PHYSICS.KEYFRAME_INTERVAL) :
    emitKeyframePhase s = s := by
  unfold emitKeyframePhase
  rw [if_neg h]

/-! ## Pocket, cushion and collision phases leave a resting table unchanged -/

theorem allStopped_dormant (bs : List SimBall) (hd : dormantBalls bs) : allStopped bs := by
  intro b hb
  have hmem : b ∈ bs := List.mem_of_mem_filter hb
  rw [(hd b hmem).1]
  norm_num [vec2LengthSq, PHYSICS.MIN_VELOCITY]

theorem pocketLoop_skip (i : Nat) (pk : Vec2) (rest : List Vec2) (b : SimBall)
    (h : PHYSICS.POCKET_MOUTH_RADIUS ≤
      Real.sqrt ((pk.x - b.pos.x) * (pk.x - b.pos.x) + (pk.y - b.pos.y) * (pk.y - b.pos.y))) :
    pocketLoop i (pk :: rest) b = pocketLoop (i + 1) rest b := by
  have hcm : PHYSICS.POCKET_COMMIT_RADIUS < PHYSICS.POCKET_MOUTH_RADIUS := by
    norm_num [PHYSICS.POCKET_COMMIT_RADIUS, PHYSICS.POCKET_MOUTH_RADIUS]
  simp only [pocketLoop]
  rw [if_neg (not_lt.2 (le_of_lt (lt_of_lt_of_le hcm h))), if_neg (not_lt.2 h)]

theorem pocketLoop_commit (i : Nat) (pk : Vec2) (rest : List Vec2) (b : SimBall)
    (h : Real.sqrt ((pk.x - b.pos.x) * (pk.x - b.pos.x) + (pk.y - b.pos.y) * (pk.y - b.pos.y)) <
      PHYSICS.POCKET_COMMIT_RADIUS) :
    pocketLoop i (pk :: rest) b = (b, some i) := by
  simp only [pocketLoop]
  rw [if_pos h]

theorem pocketLoop_far (pks : List Vec2) (b : SimBall)
    (h : ∀ pk ∈ pks, PHYSICS.POCKET_MOUTH_RADIUS ≤
      Real.sqrt ((pk.x - b.pos.x) * (pk.x - b.pos.x) + (pk.y - b.pos.y) * (pk.y - b.pos.y))) :
    ∀ i, pocketLoop i pks b = (b, none) := by
  induction pks with
  | nil => intro i; rfl
  | cons pk rest ih =>
    intro i
    rw [pocketLoop_skip i pk rest b (h pk (List.mem_cons_self pk rest))]
    exact ih (fun pk2 hm => h pk2 (List.mem_cons_of_mem pk hm)) (i + 1)

theorem handlePocketGravity_far (b : SimBall) (h : farFromPockets b.pos) :
    handlePocketGravity b = (b, none) := by
  unfold handlePocketGravity
  exact pocketLoop_far POCKETS b h 0

theorem pocketStep_far (s : SimState)
    (h : ∀ b ∈ s.balls, b.inPlay = true → farFromPockets b.pos) (i : Nat) :
    pocketStep s i = s := by
  unfold pocketStep
  cases hget : s.balls.get? i with
  | none => rfl
  | some ball =>
    dsimp only
    have hmem : ball ∈ s.balls := List.get?_mem hget
    by_cases hip : ball.inPlay = false
    · rw [if_pos hip]
    · rw [if_neg hip]
      have hinp : ball.inPlay = true := by
        cases hbp : ball.inPlay
        · exact absurd hbp hip
        · rfl
      simp only [handlePocketGravity_far ball (h ball hmem hinp)]
      rw [set_get?_self s.balls i ball hget]

theorem pocketPhase_far (s : SimState)
    (h : ∀ b ∈ s.balls, b.inPlay = true → farFromPockets b.pos) :
    pocketPhase s = s := by
  unfold pocketPhase
  exact foldl_fixed pocketStep (List.range s.balls.length) s
    (fun i _ => pocketStep_far s h i)

theorem handleCushionCollision_inBounds (b : SimBall) (h : inCushionBounds b.pos) :
    handleCushionCollision b = (b, false) := by
  obtain ⟨h1, h2, h3, h4⟩ := h
  have hc1 : ¬ (b.pos.x - TABLE.BALL_RADIUS < TABLE.CUSHION ∧
      ¬ isInPocketZone b Side.left) :=
    fun hc => absurd hc.1 (not_lt.2 (by linarith))
  have hc2 : ¬ (b.pos.x + TABLE.BALL_RADIUS > TABLE.WIDTH - TABLE.CUSHION ∧
      ¬ isInPocketZone b Side.right) :=
    fun hc => absurd hc.1 (not_lt.2 (by linarith))
  have hc3 : ¬ (b.pos.y - TABLE.BALL_RADIUS < TABLE.CUSHION ∧
      ¬ isInPocketZone b Side.top) :=
    fun hc => absurd hc.1 (not_lt.2 (by linarith))
  have hc4 : ¬ (b.pos.y + TABLE.BALL_RADIUS > TABLE.HEIGHT - TABLE.CUSHION ∧
      ¬ isInPocketZone b Side.bottom) :=
    fun hc => absurd hc.1 (not_lt.2 (by linarith))
  simp only [handleCushionCollision]
  rw [if_neg hc1]
  rw [if_neg hc2]
  rw [if_neg hc3]
  rw [if_neg hc4]

theorem cushionStep_inBounds (s : SimState)
    (h : ∀ b ∈ s.balls, b.inPlay = true → inCushionBounds b.pos) (i : Nat) :
    cushionStep s i = s := by
  unfold cushionStep
  cases hget : s.balls.get? i with
  | none => rfl
  | some ball =>
    dsimp only
    have hmem : ball ∈ s.balls := List.get?_mem hget
    by_cases hip : ball.inPlay = false
    · rw [if_pos hip]
    · rw [if_neg hip]
      have hinp : ball.inPlay = true := by
        cases hbp : ball.inPlay
        · exact absurd hbp hip
        · rfl
      simp only [handleCushionCollision_inBounds ball (h ball hmem hinp)]
      rw [if_neg (by norm_num)]
      rw [set_get?_self s.balls i ball hget]

theorem cushionPhase_inBounds (s : SimState)
    (h : ∀ b ∈ s.balls, b.inPlay = true → inCushionBounds b.pos) :
    cushionPhase s = s := by
  unfold cushionPhase
  exact foldl_fixed cushionStep (List.range s.balls.length) s
    (fun i _ => cushionStep_inBounds s h i)

theorem pairIndexList_mem_lt {n i j : Nat} (h : (i, j) ∈ pairIndexList n) :
    i < j ∧ j < n := by
  unfold pairIndexList at h
  rw [List.mem_flatMap] at h
  obtain ⟨a, _ha, hj⟩ := h
  rw [List.mem_map] at hj
  obtain ⟨b2, hb2, hab⟩ := hj
  injection hab with hab1 hab2
  rw [List.mem_iff_getElem?] at hb2
  obtain ⟨k, hk⟩ := hb2
  rw [List.getElem?_drop] at hk
  by_cases hlt : a + 1 + k < n
  · rw [List.getElem?_range hlt] at hk
    injection hk with hk2
    omega
  · rw [List.getElem?_eq_none (by simpa using hlt)] at hk
    cases hk

theorem collideStep_separated (s : SimState) (hsep : separatedBalls s.balls)
    (ij : Nat × Nat) (hij : ij ∈ pairIndexList s.balls.length) :
    collideStep s ij = s := by
  obtain ⟨i, j⟩ := ij
  obtain ⟨hij1, hij2⟩ := pairIndexList_mem_lt hij
  unfold collideStep
  dsimp only
  cases hg1 : s.balls.get? i with
  | none => rfl
  | some b1 =>
    cases hg2 : s.balls.get? j with
    | none => rfl
    | some b2 =>
      dsimp only
      rw [List.get?_eq_some] at hg1 hg2
      obtain ⟨hi, hgi⟩ := hg1
      obtain ⟨hj, hgj⟩ := hg2
      have hR := (List.pairwise_iff_get.mp hsep) ⟨i, hi⟩ ⟨j, hj⟩ hij1
      rw [hgi, hgj] at hR
      by_cases hip : b1.inPlay = false ∨ b2.inPlay = false
      · rw [if_pos hip]
      · rw [if_neg hip]
        push_neg at hip
        have h1 : b1.inPlay = true := by
          cases hbp : b1.inPlay
          · exact absurd hbp hip.1
          · rfl
        have h2 : b2.inPlay = true := by
          cases hbp : b2.inPlay
          · exact absurd hbp hip.2
          · rfl
        have hnc : ¬ checkBallBallCollision b1 b2 := by
          unfold checkBallBallCollision
          exact not_lt.2 (hR h1 h2)
        rw [if_neg hnc]

theorem ballBallPhase_separated (s : SimState) (hsep : separatedBalls s.balls) :
    ballBallPhase s = s := by
  unfold ballBallPhase
  exact foldl_fixed collideStep (pairIndexList s.balls.length) s
    (fun ij hij => collideStep_separated s hsep ij hij)

theorem ballBallPhase_single (s : SimState) (h : s.balls.length = 1) :
    ballBallPhase s = s := by
  unfold ballBallPhase
  rw [h]
  rfl

theorem simFrame_dormant (s : SimState) (hd : dormantBalls s.balls)
    (hsep : separatedBalls s.balls) :
    simFrame s = emitKeyframePhase s := by
  unfold simFrame
  have hb : (emitKeyframePhase s).balls = s.balls := emitKeyframePhase_balls s
  rw [integratePhase_dormant _ (by rw [hb]; exact fun b m => (hd b m).1)]
  rw [ballBallPhase_separated _ (by rw [hb]; exact hsep)]
  rw [pocketPhase_far _ (by rw [hb]; exact fun b m hp => ((hd b m).2 hp).2)]
  rw [cushionPhase_inBounds _ (by rw [hb]; exact fun b m hp => ((hd b m).2 hp).1)]

/-! ## Single steps of the fixed-timestep loop -/

theorem runLoop_stop (fuel frame : Nat) (s : SimState)
    (h1 : allStopped s.balls) (h2 : PHYSICS.SETTLE_FRAMES ≤ s.settledFrames + 1) :
    runLoop (fuel + 1) frame s =
      { s with time := (frame : ℝ) * PHYSICS.TIME_STEP,
               settledFrames := s.settledFrames + 1 } := by
  unfold runLoop
  dsimp only
  rw [if_pos h1, if_pos h2]

theorem runLoop_go_settling (fuel frame : Nat) (s : SimState)
    (h1 : allStopped s.balls) (h2 : ¬ PHYSICS.SETTLE_FRAMES ≤ s.settledFrames + 1) :
    runLoop (fuel + 1) frame s =
      runLoop fuel (frame + 1)
        (simFrame { s with time := (frame : ℝ) * PHYSICS.TIME_STEP,
                           settledFrames := s.settledFrames + 1 }) := by
  conv_lhs => rw [runLoop]
  dsimp only
  rw [if_pos h1, if_neg h2]

theorem runLoop_go_moving (fuel frame : Nat) (s : SimState)
    (h1 : ¬ allStopped s.balls) :
    runLoop (fuel + 1) frame s =
      runLoop fuel (frame + 1)
        (simFrame { s with time := (frame : ℝ) * PHYSICS.TIME_STEP,
                           settledFrames := 0 }) := by
  conv_lhs => rw [runLoop]
  dsimp only
  rw [if_neg h1]

/-! ## Ten dormant frames: the loop settles and breaks -/

theorem runLoop_dormant_eval (bs : List SimBall) (hd : dormantBalls bs)
    (hsep : separatedBalls bs) (m : Nat) :
    runLoop (m + 10) 0 (initSimState bs) = settledRunState bs := by
  have hstop : allStopped bs := allStopped_dormant bs hd
  rw [show m + 10 = (m + 9) + 1 from rfl,
      runLoop_go_settling (m + 9) 0 _ hstop (by norm_num [initSimState, PHYSICS.SETTLE_FRAMES]),
      simFrame_dormant _ hd hsep,
      emitKeyframePhase_neg _ (by
        norm_num [initSimState, PHYSICS.TIME_STEP, PHYSICS.KEYFRAME_INTERVAL])]
  dsimp only [initSimState]
  rw [show m + 9 = (m + 8) + 1 from rfl,
      runLoop_go_settling (m + 8) _ _ hstop (by norm_num [PHYSICS.SETTLE_FRAMES]),
      simFrame_dormant _ hd hsep,
      emitKeyframePhase_neg _ (by
        norm_num [PHYSICS.TIME_STEP, PHYSICS.KEYFRAME_INTERVAL])]
  dsimp only
  rw [show m + 8 = (m + 7) + 1 from rfl,
      runLoop_go_settling (m + 7) _ _ hstop (by norm_num [PHYSICS.SETTLE_FRAMES]),
      simFrame_dormant _ hd hsep,
      emitKeyframePhase_neg _ (by
        norm_num [PHYSICS.TIME_STEP, PHYSICS.KEYFRAME_INTERVAL])]
  dsimp only
  rw [show m + 7 = (m + 6) + 1 from rfl,
      runLoop_go_settling (m + 6) _ _ hstop (by norm_num [PHYSICS.SETTLE_FRAMES]),
      simFrame_dormant _ hd hsep,
      emitKeyframePhase_neg _ (by
        norm_num [PHYSICS.TIME_STEP, PHYSICS.KEYFRAME_INTERVAL])]
  dsimp only
  rw [show m + 6 = (m + 5) + 1 from rfl,
      runLoop_go_settling (m + 5) _ _ hstop (by norm_num [PHYSICS.SETTLE_FRAMES]),
      simFrame_dormant _ hd hsep,
      emitKeyframePhase_neg _ (by
        norm_num [PHYSICS.TIME_STEP, PHYSICS.KEYFRAME_INTERVAL])]
  dsimp only
  rw [show m + 5 = (m + 4) + 1 from rfl,
      runLoop_go_settling (m + 4) _ _ hstop (by norm_num [PHYSICS.SETTLE_FRAMES]),
      simFrame_dormant _ hd hsep,
      emitKeyframePhase_neg _ (by
        norm_num [PHYSICS.TIME_STEP, PHYSICS.KEYFRAME_INTERVAL])]
  dsimp only
  rw [show m + 4 = (m + 3) + 1 from rfl,
      runLoop_go_settling (m + 3) _ _ hstop (by norm_num [PHYSICS.SETTLE_FRAMES]),
      simFrame_dormant _ hd hsep,
      emitKeyframePhase_neg _ (by
        norm_num [PHYSICS.TIME_STEP, PHYSICS.KEYFRAME_INTERVAL])]
  dsimp only
  rw [show m + 3 = (m + 2) + 1 from rfl,
      runLoop_go_settling (m + 2) _ _ hstop (by norm_num [PHYSICS.SETTLE_FRAMES]),
      simFrame_dormant _ hd hsep,
      emitKeyframePhase_neg _ (by
        norm_num [PHYSICS.TIME_STEP, PHYSICS.KEYFRAME_INTERVAL])]
  dsimp only
  rw [show m + 2 = (m + 1) + 1 from rfl,
      runLoop_go_settling (m + 1) _ _ hstop (by norm_num [PHYSICS.SETTLE_FRAMES]),
      simFrame_dormant _ hd hsep,
      emitKeyframePhase_pos _ (by
        norm_num [PHYSICS.TIME_STEP, PHYSICS.KEYFRAME_INTERVAL])]
  dsimp only
  rw [runLoop_stop m _ _ hstop (by norm_num [PHYSICS.SETTLE_FRAMES])]
  rfl

/-! ## The ok branch of simulateShot, and resting-table initialisation -/

theorem simulateShot_ok (ts : TableState) (sp : ShotParams) (cb : SimBall)
    (hfind : (cloneBalls ts).find? (fun b => decide (b.id = BallId.cue)) = some cb)
    (hip : ¬ cb.inPlay = false) :
    simulateShot ts sp =
      Except.ok (simResultOf ts
        (runLoop PHYSICS.MAX_FRAMES 0 (initSimState (initBalls ts sp)))) := by
  unfold simulateShot
  simp only [hfind]
  rw [if_neg hip]
  rfl

theorem mouth_le_sqrt (a b : ℝ) (h : PHYSICS.POCKET_MOUTH_RADIUS ^ 2 ≤ a * a + b * b) :
    PHYSICS.POCKET_MOUTH_RADIUS ≤ Real.sqrt (a * a + b * b) :=
  (Real.le_sqrt' (by norm_num [PHYSICS.POCKET_MOUTH_RADIUS])).mpr h

theorem initBalls_dormant_zeroPower (ts : TableState)
    (hgood : ∀ b0 ∈ ts.balls, b0.inPlay = true →
      inCushionBounds b0.pos ∧ farFromPockets b0.pos) :
    dormantBalls (initBalls ts zeroPowerShot) := by
  have hsp : zeroPowerShot.power ^ PHYSICS.POWER_EXPONENT * PHYSICS.POWER_TO_VELOCITY = 0 := by
    rw [show zeroPowerShot.power = (0 : ℝ) from rfl,
        Real.zero_rpow (by norm_num [PHYSICS.POWER_EXPONENT]), zero_mul]
  have hclone : ∀ c ∈ cloneBalls ts, dormantBall c := by
    intro c hc
    unfold cloneBalls at hc
    rw [List.mem_map] at hc
    obtain ⟨b0, hb0, rfl⟩ := hc
    exact ⟨rfl, fun hp => hgood b0 hb0 hp⟩
  intro b hb
  simp only [initBalls] at hb
  rcases updateFirst_mem_cases hb with h | ⟨a, ha, rfl⟩
  · exact hclone b h
  · obtain ⟨hvel, hbound⟩ := hclone a ha
    refine ⟨?_, fun hp => hbound hp⟩
    show (⟨Real.cos zeroPowerShot.angle *
        (zeroPowerShot.power ^ PHYSICS.POWER_EXPONENT * PHYSICS.POWER_TO_VELOCITY),
        Real.sin zeroPowerShot.angle *
        (zeroPowerShot.power ^ PHYSICS.POWER_EXPONENT * PHYSICS.POWER_TO_VELOCITY)⟩ : Vec2) =
      (⟨0, 0⟩ : Vec2)
    rw [hsp]
    norm_num [Vec2.mk.injEq]

theorem initBalls_separated (ts : TableState) (sp : ShotParams)
    (hsep : ts.balls.Pairwise (fun a b => a.inPlay = true → b.inPlay = true →
      TABLE.BALL_RADIUS * 2 ≤ vec2Distance a.pos b.pos)) :
    separatedBalls (initBalls ts sp) := by
  unfold separatedBalls
  simp only [initBalls]
  apply pairwise_updateFirst
  · unfold cloneBalls
    rw [List.pairwise_map]
    exact hsep.imp (fun h => h)
  · intro a b h hpa hpb
    exact h hpa hpb
  · intro a b h hpa hpb
    exact h hpa hpb

theorem initBalls_map_final (ts : TableState) (sp : ShotParams) :
    (initBalls ts sp).map (fun b =>
      ({ id := b.id, pos := ⟨b.pos.x, b.pos.y⟩, vel := ⟨0, 0⟩,
         inPlay := b.inPlay } : BallState)) =
    ts.balls.map (fun b =>
      ({ id := b.id, pos := ⟨b.pos.x, b.pos.y⟩, vel := ⟨0, 0⟩,
         inPlay := b.inPlay } : BallState)) := by
  simp only [initBalls]
  have h1 : (updateFirst (fun b => decide (b.id = BallId.cue))
      (fun b => { b with
        vel := ⟨Real.cos sp.angle * (sp.power ^ PHYSICS.POWER_EXPONENT * PHYSICS.POWER_TO_VELOCITY),
                 Real.sin sp.angle * (sp.power ^ PHYSICS.POWER_EXPONENT * PHYSICS.POWER_TO_VELOCITY)⟩,
        spin := ⟨sp.spinX, sp.spinY⟩ })
      (cloneBalls ts)).map (fun b =>
        ({ id := b.id, pos := ⟨b.pos.x, b.pos.y⟩, vel := ⟨0, 0⟩,
           inPlay := b.inPlay } : BallState)) =
      (cloneBalls ts).map (fun b =>
        ({ id := b.id, pos := ⟨b.pos.x, b.pos.y⟩, vel := ⟨0, 0⟩,
           inPlay := b.inPlay } : BallState)) :=
    map_updateFirst_invariant (cloneBalls ts) (fun a => rfl)
  rw [h1]
  unfold cloneBalls
  rw [List.map_map]
  rfl

/-- C9 (amended): for a zero-power shot on a table whose in-play balls all
rest inside the cushion bounds, away from every pocket mouth and apart from
each other, the simulation returns normally, the loop breaks after
SETTLE_FRAMES = 10 settled frames (so the run with the full MAX_FRAMES =
30000 budget equals the run given only SETTLE_FRAMES frames of budget), no
ball's position changes, the pocketed list is unchanged, and exactly two
keyframes come back (the frame-8 in-loop keyframe plus the final one). -/
theorem claim_C9_settle (ts : TableState) (cb : BallState)
    (hfind : ts.balls.find? (fun b => decide (b.id = BallId.cue)) = some cb)
    (hip : cb.inPlay = true)
    (hgood : ∀ b0 ∈ ts.balls, b0.inPlay = true →
      inCushionBounds b0.pos ∧ farFromPockets b0.pos)
    (hsep : ts.balls.Pairwise (fun a b => a.inPlay = true → b.inPlay = true →
      TABLE.BALL_RADIUS * 2 ≤ vec2Distance a.pos b.pos)) :
    ∃ res, simulateShot ts zeroPowerShot = Except.ok res ∧
      res.keyframes.length = 2 ∧
      res.finalState.balls = ts.balls.map (fun b =>
        ({ id := b.id, pos := ⟨b.pos.x, b.pos.y⟩, vel := ⟨0, 0⟩,
           inPlay := b.inPlay } : BallState)) ∧
      res.finalState.pocketed = ts.pocketed ∧
      runLoop PHYSICS.MAX_FRAMES 0 (initSimState (initBalls ts zeroPowerShot)) =
        runLoop PHYSICS.SETTLE_FRAMES 0 (initSimState (initBalls ts zeroPowerShot)) ∧
      (runLoop PHYSICS.MAX_FRAMES 0
          (initSimState (initBalls ts zeroPowerShot))).settledFrames =
        PHYSICS.SETTLE_FRAMES := by
  have hd := initBalls_dormant_zeroPower ts hgood
  have hs := initBalls_separated ts zeroPowerShot hsep
  have hrunM : runLoop PHYSICS.MAX_FRAMES 0 (initSimState (initBalls ts zeroPowerShot)) =
      settledRunState (initBalls ts zeroPowerShot) := by
    rw [show PHYSICS.MAX_FRAMES = 29990 + 10 from by norm_num [PHYSICS.MAX_FRAMES]]
    exact runLoop_dormant_eval _ hd hs 29990
  have hrunS : runLoop PHYSICS.SETTLE_FRAMES 0 (initSimState (initBalls ts zeroPowerShot)) =
      settledRunState (initBalls ts zeroPowerShot) := by
    rw [show PHYSICS.SETTLE_FRAMES = 0 + 10 from by norm_num [PHYSICS.SETTLE_FRAMES]]
    exact runLoop_dormant_eval _ hd hs 0
  have hform := find?_cue_cloneBalls ts.balls
  have hfc : (cloneBalls ts).find? (fun b => decide (b.id = BallId.cue)) =
      some { id := cb.id, pos := ⟨cb.pos.x, cb.pos.y⟩, vel := ⟨0, 0⟩, inPlay := cb.inPlay,
             spin := ⟨0, 0⟩, hasHitBall := false, isRolling := false } := by
    unfold cloneBalls
    rw [hform, hfind]
    rfl
  have hok := simulateShot_ok ts zeroPowerShot _ hfc (by simp [hip])
  refine ⟨_, hok, ?_, ?_, ?_, ?_, ?_⟩
  · show ((runLoop PHYSICS.MAX_FRAMES 0 (initSimState (initBalls ts zeroPowerShot))).keyframes
      ++ _).length = 2
    rw [hrunM]
    rfl
  · show (runLoop PHYSICS.MAX_FRAMES 0
      (initSimState (initBalls ts zeroPowerShot))).balls.map _ = _
    rw [hrunM]
    exact initBalls_map_final ts zeroPowerShot
  · show ts.pocketed ++ (runLoop PHYSICS.MAX_FRAMES 0
      (initSimState (initBalls ts zeroPowerShot))).pocketedBalls = ts.pocketed
    rw [hrunM]
    exact List.append_nil ts.pocketed
  · exact hrunM.trans hrunS.symm
  · rw [hrunM]
    rfl

/-- C9 witness: the lone centred cue ball at rest satisfies every side
condition, and the settle theorem instantiates to it. -/
theorem claim_C9_settle_witness :
    ∃ res, simulateShot c9GoodState zeroPowerShot = Except.ok res ∧
      res.keyframes.length = 2 ∧
      res.finalState.balls = c9GoodState.balls.map (fun b =>
        ({ id := b.id, pos := ⟨b.pos.x, b.pos.y⟩, vel := ⟨0, 0⟩,
           inPlay := b.inPlay } : BallState)) ∧
      res.finalState.pocketed = c9GoodState.pocketed ∧
      runLoop PHYSICS.MAX_FRAMES 0 (initSimState (initBalls c9GoodState zeroPowerShot)) =
        runLoop PHYSICS.SETTLE_FRAMES 0 (initSimState (initBalls c9GoodState zeroPowerShot)) ∧
      (runLoop PHYSICS.MAX_FRAMES 0
          (initSimState (initBalls c9GoodState zeroPowerShot))).settledFrames =
        PHYSICS.SETTLE_FRAMES :=
  claim_C9_settle c9GoodState (ballAt BallId.cue 1.27 0.635 true) rfl rfl
    (by
      intro b0 hb0 hp
      simp only [c9GoodState, List.mem_singleton] at hb0
      subst hb0
      constructor
      · norm_num [inCushionBounds, ballAt, TABLE.CUSHION, TABLE.BALL_RADIUS,
          TABLE.WIDTH, TABLE.HEIGHT]
      · intro pk hpk
        simp only [POCKETS, List.mem_cons, List.not_mem_nil, or_false] at hpk
        rcases hpk with h | h | h | h | h | h <;> subst h <;>
          · apply mouth_le_sqrt
            norm_num [ballAt, TABLE.CUSHION, TABLE.WIDTH, TABLE.HEIGHT,
              PHYSICS.POCKET_MOUTH_RADIUS])
    (by
      simp only [c9GoodState]
      exact List.pairwise_singleton _ _)

/-! ## The out-of-bounds resting cue ball: the first frame clamps it -/

theorem sqrt_gt_mouth (a b : ℝ) (h : PHYSICS.POCKET_MOUTH_RADIUS ^ 2 < a * a + b * b) :
    Real.sqrt (a * a + b * b) > PHYSICS.POCKET_MOUTH_RADIUS :=
  (Real.lt_sqrt (by norm_num [PHYSICS.POCKET_MOUTH_RADIUS])).mpr h

theorem oobBall_notInPocketZone_left : ¬ isInPocketZone oobBall Side.left := by
  rintro ⟨pk, hpk, hnd, hx⟩
  simp only [POCKETS, List.mem_cons, List.not_mem_nil, or_false] at hpk
  rcases hpk with h | h | h | h | h | h <;> subst h
  · exact hnd (by
      unfold vec2Distance vec2Length vec2Sub
      exact sqrt_gt_mouth _ _ (by
        norm_num [oobBall, TABLE.CUSHION, PHYSICS.POCKET_MOUTH_RADIUS]))
  · norm_num [TABLE.WIDTH, TABLE.CUSHION] at hx
  · norm_num [TABLE.WIDTH, TABLE.CUSHION] at hx
  · exact hnd (by
      unfold vec2Distance vec2Length vec2Sub
      exact sqrt_gt_mouth _ _ (by
        norm_num [oobBall, TABLE.CUSHION, TABLE.HEIGHT, PHYSICS.POCKET_MOUTH_RADIUS]))
  · norm_num [TABLE.WIDTH, TABLE.CUSHION] at hx
  · norm_num [TABLE.WIDTH, TABLE.CUSHION] at hx

theorem oobBall_farFromPockets : farFromPockets oobBall.pos := by
  intro pk hpk
  simp only [POCKETS, List.mem_cons, List.not_mem_nil, or_false] at hpk
  rcases hpk with h | h | h | h | h | h <;> subst h <;>
    · apply mouth_le_sqrt
      norm_num [oobBall, TABLE.CUSHION, TABLE.WIDTH, TABLE.HEIGHT,
        PHYSICS.POCKET_MOUTH_RADIUS]

theorem oobClampedBall_dormant : dormantBall oobClampedBall := by
  refine ⟨rfl, fun hp => ⟨?_, ?_⟩⟩
  · norm_num [oobClampedBall, inCushionBounds, TABLE.CUSHION, TABLE.BALL_RADIUS,
      TABLE.WIDTH, TABLE.HEIGHT]
  · intro pk hpk
    simp only [POCKETS, List.mem_cons, List.not_mem_nil, or_false] at hpk
    rcases hpk with h | h | h | h | h | h <;> subst h <;>
      · apply mouth_le_sqrt
        norm_num [oobClampedBall, TABLE.CUSHION, TABLE.BALL_RADIUS, TABLE.WIDTH,
          TABLE.HEIGHT, PHYSICS.POCKET_MOUTH_RADIUS]

theorem handleCushionCollision_oob :
    handleCushionCollision oobBall =
      ({ oobBall with
          pos := ⟨TABLE.CUSHION + TABLE.BALL_RADIUS, oobBall.pos.y⟩,
          vel := ⟨-oobBall.vel.x * PHYSICS.CUSHION_RESTITUTION, oobBall.vel.y⟩ }, true) := by
  have hpos : oobBall.pos.x - TABLE.BALL_RADIUS < TABLE.CUSHION ∧
      ¬ isInPocketZone oobBall Side.left :=
    ⟨by norm_num [oobBall, TABLE.BALL_RADIUS, TABLE.CUSHION], oobBall_notInPocketZone_left⟩
  have hss : applySideSpinOnCushion
      ({ oobBall with
          pos := ⟨TABLE.CUSHION + TABLE.BALL_RADIUS, oobBall.pos.y⟩,
          vel := ⟨-oobBall.vel.x * PHYSICS.CUSHION_RESTITUTION, oobBall.vel.y⟩ } : SimBall)
      Axis.y =
      { oobBall with
          pos := ⟨TABLE.CUSHION + TABLE.BALL_RADIUS, oobBall.pos.y⟩,
          vel := ⟨-oobBall.vel.x * PHYSICS.CUSHION_RESTITUTION, oobBall.vel.y⟩ } := by
    simp only [applySideSpinOnCushion]
    rw [if_pos (by norm_num [oobBall])]
  have hc2 : ¬ (({ oobBall with
      pos := ⟨TABLE.CUSHION + TABLE.BALL_RADIUS, oobBall.pos.y⟩,
      vel := ⟨-oobBall.vel.x * PHYSICS.CUSHION_RESTITUTION, oobBall.vel.y⟩ } : SimBall).pos.x +
        TABLE.BALL_RADIUS > TABLE.WIDTH - TABLE.CUSHION ∧
      ¬ isInPocketZone ({ oobBall with
        pos := ⟨TABLE.CUSHION + TABLE.BALL_RADIUS, oobBall.pos.y⟩,
        vel := ⟨-oobBall.vel.x * PHYSICS.CUSHION_RESTITUTION, oobBall.vel.y⟩ } : SimBall)
        Side.right) :=
    fun hc => absurd hc.1 (by norm_num [TABLE.CUSHION, TABLE.BALL_RADIUS, TABLE.WIDTH])
  have hc3 : ¬ (({ oobBall with
      pos := ⟨TABLE.CUSHION + TABLE.BALL_RADIUS, oobBall.pos.y⟩,
      vel := ⟨-oobBall.vel.x * PHYSICS.CUSHION_RESTITUTION, oobBall.vel.y⟩ } : SimBall).pos.y -
        TABLE.BALL_RADIUS < TABLE.CUSHION ∧
      ¬ isInPocketZone ({ oobBall with
        pos := ⟨TABLE.CUSHION + TABLE.BALL_RADIUS, oobBall.pos.y⟩,
        vel := ⟨-oobBall.vel.x * PHYSICS.CUSHION_RESTITUTION, oobBall.vel.y⟩ } : SimBall)
        Side.top) :=
    fun hc => absurd hc.1 (by norm_num [oobBall, TABLE.CUSHION, TABLE.BALL_RADIUS])
  have hc4 : ¬ (({ oobBall with
      pos := ⟨TABLE.CUSHION + TABLE.BALL_RADIUS, oobBall.pos.y⟩,
      vel := ⟨-oobBall.vel.x * PHYSICS.CUSHION_RESTITUTION, oobBall.vel.y⟩ } : SimBall).pos.y +
        TABLE.BALL_RADIUS > TABLE.HEIGHT - TABLE.CUSHION ∧
      ¬ isInPocketZone ({ oobBall with
        pos := ⟨TABLE.CUSHION + TABLE.BALL_RADIUS, oobBall.pos.y⟩,
        vel := ⟨-oobBall.vel.x * PHYSICS.CUSHION_RESTITUTION, oobBall.vel.y⟩ } : SimBall)
        Side.bottom) :=
    fun hc => absurd hc.1 (by
      norm_num [oobBall, TABLE.CUSHION, TABLE.BALL_RADIUS, TABLE.HEIGHT])
  simp only [handleCushionCollision]
  rw [if_pos hpos]
  rw [if_pos (show oobBall.id = BallId.cue from rfl)]
  rw [hss]
  rw [if_neg hc2]
  rw [if_neg hc3]
  rw [if_neg hc4]

theorem cushionPhase_oob (s : SimState) (hb : s.balls = [oobBall]) :
    cushionPhase s =
      { s with
          balls := [oobClampedBall],
          pendingEvents := s.pendingEvents ++ [oobCushionEvent] } := by
  have hlen0 : vec2Length oobBall.vel = 0 := by
    show Real.sqrt (oobBall.vel.x * oobBall.vel.x + oobBall.vel.y * oobBall.vel.y) = 0
    norm_num [oobBall, Real.sqrt_zero]
  unfold cushionPhase
  rw [hb]
  show cushionStep s 0 = _
  unfold cushionStep
  rw [hb]
  dsimp only [List.get?]
  rw [if_neg (by norm_num [oobBall])]
  rw [handleCushionCollision_oob]
  rw [hlen0]
  rw [if_pos (by rfl)]
  rw [decide_eq_false (by norm_num [MIN_RAIL_VELOCITY] : ¬ ((0 : ℝ) > MIN_RAIL_VELOCITY))]
  rw [Bool.false_and, Bool.or_false]
  dsimp only
  norm_num [oobBall, oobClampedBall, oobCushionEvent, SimState.mk.injEq,
    SimBall.mk.injEq, Vec2.mk.injEq, KeyFrameEvent.mk.injEq]

theorem allStopped_oob : allStopped [oobBall] := by
  intro b hb
  have hbb : b = oobBall := by simpa using List.mem_of_mem_filter hb
  subst hbb
  norm_num [oobBall, vec2LengthSq, PHYSICS.MIN_VELOCITY]

theorem allStopped_oobClamped : allStopped [oobClampedBall] := by
  intro b hb
  have hbb : b = oobClampedBall := by simpa using List.mem_of_mem_filter hb
  subst hbb
  norm_num [oobClampedBall, vec2LengthSq, PHYSICS.MIN_VELOCITY]

theorem initBalls_oob : initBalls c9OobState zeroPowerShot = [oobBall] := by
  have hstep : initBalls c9OobState zeroPowerShot =
      [{ oobBall with
          vel := ⟨Real.cos zeroPowerShot.angle *
              (zeroPowerShot.power ^ PHYSICS.POWER_EXPONENT * PHYSICS.POWER_TO_VELOCITY),
            Real.sin zeroPowerShot.angle *
              (zeroPowerShot.power ^ PHYSICS.POWER_EXPONENT * PHYSICS.POWER_TO_VELOCITY)⟩,
          spin := ⟨zeroPowerShot.spinX, zeroPowerShot.spinY⟩ }] := rfl
  rw [hstep]
  have hv : (⟨Real.cos zeroPowerShot.angle *
      (zeroPowerShot.power ^ PHYSICS.POWER_EXPONENT * PHYSICS.POWER_TO_VELOCITY),
    Real.sin zeroPowerShot.angle *
      (zeroPowerShot.power ^ PHYSICS.POWER_EXPONENT * PHYSICS.POWER_TO_VELOCITY)⟩ : Vec2) =
      (⟨0, 0⟩ : Vec2) := by
    rw [show zeroPowerShot.power = (0 : ℝ) from rfl,
        Real.zero_rpow (by norm_num [PHYSICS.POWER_EXPONENT])]
    norm_num [Vec2.mk.injEq]
  rw [hv]
  norm_num [oobBall, zeroPowerShot, SimBall.mk.injEq, Vec2.mk.injEq]

theorem oob_run_eval :
    runLoop PHYSICS.MAX_FRAMES 0 (initSimState (initBalls c9OobState zeroPowerShot)) =
      oobFinalRunState := by
  have hd1 : dormantBalls [oobClampedBall] := by
    intro b hb
    have hbb : b = oobClampedBall := by simpa using hb
    subst hbb
    exact oobClampedBall_dormant
  have hs1 : separatedBalls [oobClampedBall] := List.pairwise_singleton _ _
  have hstop1 : allStopped [oobClampedBall] := allStopped_oobClamped
  rw [initBalls_oob]
  rw [show PHYSICS.MAX_FRAMES = 29990 + 10 from by norm_num [PHYSICS.MAX_FRAMES]]
  rw [show 29990 + 10 = (29990 + 9) + 1 from rfl,
      runLoop_go_settling (29990 + 9) 0 _ allStopped_oob
        (by norm_num [initSimState, PHYSICS.SETTLE_FRAMES])]
  dsimp only [initSimState]
  simp only [simFrame]
  rw [emitKeyframePhase_neg _ (by
        norm_num [PHYSICS.TIME_STEP, PHYSICS.KEYFRAME_INTERVAL])]
  rw [integratePhase_dormant _ (by
        intro b hb
        have hbb : b = oobBall := by simpa using hb
        subst hbb
        rfl)]
  rw [ballBallPhase_single _ (by rfl)]
  rw [pocketPhase_far _ (by
        intro b hb hp
        have hbb : b = oobBall := by simpa using hb
        subst hbb
        exact oobBall_farFromPockets)]
  rw [cushionPhase_oob _ (by rfl)]
  dsimp only
  rw [show 29990 + 9 = (29990 + 8) + 1 from rfl,
      runLoop_go_settling (29990 + 8) _ _ hstop1 (by norm_num [PHYSICS.SETTLE_FRAMES]),
      simFrame_dormant _ hd1 hs1,
      emitKeyframePhase_neg _ (by
        norm_num [PHYSICS.TIME_STEP, PHYSICS.KEYFRAME_INTERVAL])]
  dsimp only
  rw [show 29990 + 8 = (29990 + 7) + 1 from rfl,
      runLoop_go_settling (29990 + 7) _ _ hstop1 (by norm_num [PHYSICS.SETTLE_FRAMES]),
      simFrame_dormant _ hd1 hs1,
      emitKeyframePhase_neg _ (by
        norm_num [PHYSICS.TIME_STEP, PHYSICS.KEYFRAME_INTERVAL])]
  dsimp only
  rw [show 29990 + 7 = (29990 + 6) + 1 from rfl,
      runLoop_go_settling (29990 + 6) _ _ hstop1 (by norm_num [PHYSICS.SETTLE_FRAMES]),
      simFrame_dormant _ hd1 hs1,
      emitKeyframePhase_neg _ (by
        norm_num [PHYSICS.TIME_STEP, PHYSICS.KEYFRAME_INTERVAL])]
  dsimp only
  rw [show 29990 + 6 = (29990 + 5) + 1 from rfl,
      runLoop_go_settling (29990 + 5) _ _ hstop1 (by norm_num [PHYSICS.SETTLE_FRAMES]),
      simFrame_dormant _ hd1 hs1,
      emitKeyframePhase_neg _ (by
        norm_num [PHYSICS.TIME_STEP, PHYSICS.KEYFRAME_INTERVAL])]
  dsimp only
  rw [show 29990 + 5 = (29990 + 4) + 1 from rfl,
      runLoop_go_settling (29990 + 4) _ _ hstop1 (by norm_num [PHYSICS.SETTLE_FRAMES]),
      simFrame_dormant _ hd1 hs1,
      emitKeyframePhase_neg _ (by
        norm_num [PHYSICS.TIME_STEP, PHYSICS.KEYFRAME_INTERVAL])]
  dsimp only
  rw [show 29990 + 4 = (29990 + 3) + 1 from rfl,
      runLoop_go_settling (29990 + 3) _ _ hstop1 (by norm_num [PHYSICS.SETTLE_FRAMES]),
      simFrame_dormant _ hd1 hs1,
      emitKeyframePhase_neg _ (by
        norm_num [PHYSICS.TIME_STEP, PHYSICS.KEYFRAME_INTERVAL])]
  dsimp only
  rw [show 29990 + 3 = (29990 + 2) + 1 from rfl,
      runLoop_go_settling (29990 + 2) _ _ hstop1 (by norm_num [PHYSICS.SETTLE_FRAMES]),
      simFrame_dormant _ hd1 hs1,
      emitKeyframePhase_neg _ (by
        norm_num [PHYSICS.TIME_STEP, PHYSICS.KEYFRAME_INTERVAL])]
  dsimp only
  rw [show 29990 + 2 = (29990 + 1) + 1 from rfl,
      runLoop_go_settling (29990 + 1) _ _ hstop1 (by norm_num [PHYSICS.SETTLE_FRAMES]),
      simFrame_dormant _ hd1 hs1,
      emitKeyframePhase_pos _ (by
        norm_num [PHYSICS.TIME_STEP, PHYSICS.KEYFRAME_INTERVAL])]
  dsimp only
  rw [runLoop_stop 29990 _ _ hstop1 (by norm_num [PHYSICS.SETTLE_FRAMES])]
  rfl

/-- C9: counterexample to the unqualified claim. In c9OobState the lone cue
ball rests at x = 0.03 with zero velocity; a zero-power shot returns
normally, yet the first frame's cushion pass clamps the ball to
x = CUSHION + BALL_RADIUS, so its position changes even though nothing was
moving. -/
theorem claim_C9_counterexample :
    ∃ res, simulateShot c9OobState zeroPowerShot = Except.ok res ∧
      c9OobState.balls = [({ id := BallId.cue, pos := ⟨0.03, 0.635⟩, vel := ⟨0, 0⟩,
                             inPlay := true } : BallState)] ∧
      res.finalState.balls = [({ id := BallId.cue,
                                 pos := ⟨TABLE.CUSHION + TABLE.BALL_RADIUS, 0.635⟩,
                                 vel := ⟨0, 0⟩, inPlay := true } : BallState)] ∧
      ¬ (TABLE.CUSHION + TABLE.BALL_RADIUS = 0.03) := by
  have hok := simulateShot_ok c9OobState zeroPowerShot
    { id := BallId.cue, pos := ⟨0.03, 0.635⟩, vel := ⟨0, 0⟩, inPlay := true,
      spin := ⟨0, 0⟩, hasHitBall := false, isRolling := false } rfl (by norm_num)
  refine ⟨_, hok, rfl, ?_, by norm_num [TABLE.CUSHION, TABLE.BALL_RADIUS]⟩
  rw [oob_run_eval]
  rfl

/-! ## The straight drop into the top-middle pocket: frame 0 of the c1 run -/

theorem integrateBall_c1 : integrateBall c1MovingBall = c1MovedBall := by
  have hspeed : vec2Length (⟨0, -8⟩ : Vec2) = 8 := by
    show Real.sqrt ((0 : ℝ) * 0 + -8 * -8) = 8
    rw [show (0 : ℝ) * 0 + -8 * -8 = 8 ^ 2 by norm_num]
    exact Real.sqrt_sq (by norm_num)
  have hmax : max 0 (8 - PHYSICS.SLIDING_FRICTION_COEFF * PHYSICS.GRAVITY *
      PHYSICS.TIME_STEP) = (319673 / 40000 : ℝ) := by
    rw [max_eq_right (by
      norm_num [PHYSICS.SLIDING_FRICTION_COEFF, PHYSICS.GRAVITY, PHYSICS.TIME_STEP])]
    norm_num [PHYSICS.SLIDING_FRICTION_COEFF, PHYSICS.GRAVITY, PHYSICS.TIME_STEP]
  simp only [integrateBall, c1MovingBall]
  rw [hspeed]
  rw [if_pos (show (8 : ℝ) > PHYSICS.MIN_VELOCITY by norm_num [PHYSICS.MIN_VELOCITY])]
  rw [if_neg (show ¬ (True ∧ (8 : ℝ) < PHYSICS.ROLLING_TRANSITION_SPEED) by
        norm_num [PHYSICS.ROLLING_TRANSITION_SPEED])]
  dsimp only
  rw [if_neg (show ¬ ((false : Bool) = true) by norm_num)]
  rw [hmax]
  rw [if_neg (show ¬ ((319673 / 40000 : ℝ) = 0) by norm_num)]
  rw [if_neg (show ¬ (vec2LengthSq (vec2Scale ⟨0, -8⟩ (319673 / 40000 / 8)) <
        PHYSICS.MIN_VELOCITY * PHYSICS.MIN_VELOCITY) by
        norm_num [vec2LengthSq, vec2Scale, PHYSICS.MIN_VELOCITY])]
  norm_num [c1MovedBall, vec2Add, vec2Scale, PHYSICS.TIME_STEP, SPIN_DECAY,
    SimBall.mk.injEq, Vec2.mk.injEq]

theorem sqrt_lt_commit (a b : ℝ) (h : a * a + b * b < PHYSICS.POCKET_COMMIT_RADIUS ^ 2) :
    Real.sqrt (a * a + b * b) < PHYSICS.POCKET_COMMIT_RADIUS :=
  (Real.sqrt_lt' (by norm_num [PHYSICS.POCKET_COMMIT_RADIUS])).mpr h

theorem handlePocketGravity_c1 : handlePocketGravity c1MovedBall = (c1MovedBall, some 1) := by
  unfold handlePocketGravity POCKETS
  rw [pocketLoop_skip 0 _ _ _ (by
    apply mouth_le_sqrt
    norm_num [c1MovedBall, TABLE.CUSHION, PHYSICS.POCKET_MOUTH_RADIUS])]
  rw [pocketLoop_commit 1 _ _ _ (by
    apply sqrt_lt_commit
    norm_num [c1MovedBall, TABLE.CUSHION, TABLE.WIDTH, PHYSICS.POCKET_COMMIT_RADIUS])]

theorem pocketPhase_c1 (s : SimState) (hb : s.balls = [c1MovedBall]) :
    pocketPhase s =
      { s with
          balls := [c1PocketedBall],
          pocketedBalls := s.pocketedBalls ++ [BallId.cue],
          pocketIndices := s.pocketIndices ++ [(BallId.cue, 1)],
          pendingEvents := s.pendingEvents ++ [c1PocketEvent],
          scratch := true } := by
  have hlen00 : vec2Length (⟨0, 0⟩ : Vec2) = 0 := by
    show Real.sqrt ((0 : ℝ) * 0 + 0 * 0) = 0
    rw [show (0 : ℝ) * 0 + 0 * 0 = 0 by norm_num, Real.sqrt_zero]
  unfold pocketPhase
  rw [hb]
  show pocketStep s 0 = _
  unfold pocketStep
  rw [hb]
  dsimp only [List.get?]
  rw [if_neg (by norm_num [c1MovedBall])]
  rw [handlePocketGravity_c1]
  dsimp only
  rw [hlen00]
  norm_num [c1MovedBall, c1PocketedBall, c1PocketEvent, POCKETS, SimState.mk.injEq,
    SimBall.mk.injEq, Vec2.mk.injEq, KeyFrameEvent.mk.injEq, List.set, Bool.or_true]

theorem initBalls_c1 : initBalls c1State c1Shot = [c1MovingBall] := by
  have hstep : initBalls c1State c1Shot =
      [{ c1MovingBall with
          vel := ⟨Real.cos c1Shot.angle *
              (c1Shot.power ^ PHYSICS.POWER_EXPONENT * PHYSICS.POWER_TO_VELOCITY),
            Real.sin c1Shot.angle *
              (c1Shot.power ^ PHYSICS.POWER_EXPONENT * PHYSICS.POWER_TO_VELOCITY)⟩,
          spin := ⟨c1Shot.spinX, c1Shot.spinY⟩ }] := rfl
  rw [hstep]
  have hv : (⟨Real.cos c1Shot.angle *
      (c1Shot.power ^ PHYSICS.POWER_EXPONENT * PHYSICS.POWER_TO_VELOCITY),
    Real.sin c1Shot.angle *
      (c1Shot.power ^ PHYSICS.POWER_EXPONENT * PHYSICS.POWER_TO_VELOCITY)⟩ : Vec2) =
      (⟨0, -8⟩ : Vec2) := by
    rw [show c1Shot.angle = -(Real.pi / 2) from rfl, show c1Shot.power = (1 : ℝ) from rfl,
        Real.one_rpow, Real.cos_neg, Real.sin_neg, Real.cos_pi_div_two,
        Real.sin_pi_div_two]
    norm_num [PHYSICS.POWER_TO_VELOCITY, Vec2.mk.injEq]
  rw [hv]
  norm_num [c1MovingBall, c1Shot, SimBall.mk.injEq, Vec2.mk.injEq]

theorem notStopped_c1 : ¬ allStopped [c1MovingBall] := by
  intro h
  have hm : c1MovingBall ∈ [c1MovingBall].filter (fun b => b.inPlay) := by
    rw [List.mem_filter]
    exact ⟨List.mem_singleton_self _, rfl⟩
  have hlt := h c1MovingBall hm
  norm_num [c1MovingBall, vec2LengthSq, PHYSICS.MIN_VELOCITY] at hlt

theorem allStopped_c1Pocketed : allStopped [c1PocketedBall] := by
  intro b hb
  rw [List.mem_filter] at hb
  have hbb : b = c1PocketedBall := by simpa using hb.1
  subst hbb
  norm_num [c1PocketedBall] at hb

theorem integratePhase_c1 (s : SimState) (hb : s.balls = [c1MovingBall]) :
    integratePhase s = { s with balls := [c1MovedBall] } := by
  unfold integratePhase
  rw [hb]
  dsimp only [List.map]
  rw [integrateBall_c1]

theorem cushionStep_notInPlay (s : SimState)
    (h : ∀ b ∈ s.balls, b.inPlay = false) (i : Nat) :
    cushionStep s i = s := by
  unfold cushionStep
  cases hget : s.balls.get? i with
  | none => rfl
  | some ball =>
    dsimp only
    rw [if_pos (h ball (List.get?_mem hget))]

theorem cushionPhase_notInPlay (s : SimState)
    (h : ∀ b ∈ s.balls, b.inPlay = false) :
    cushionPhase s = s := by
  unfold cushionPhase
  exact foldl_fixed cushionStep (List.range s.balls.length) s
    (fun i _ => cushionStep_notInPlay s h i)

theorem c1_run_eval :
    runLoop PHYSICS.MAX_FRAMES 0 (initSimState (initBalls c1State c1Shot)) =
      c1FinalRunState := by
  have hd1 : dormantBalls [c1PocketedBall] := by
    intro b hb
    have hbb : b = c1PocketedBall := by simpa using hb
    subst hbb
    exact ⟨rfl, fun hp => absurd hp (by norm_num [c1PocketedBall])⟩
  have hs1 : separatedBalls [c1PocketedBall] := List.pairwise_singleton _ _
  rw [initBalls_c1]
  rw [show PHYSICS.MAX_FRAMES = 29989 + 11 from by norm_num [PHYSICS.MAX_FRAMES]]
  rw [show 29989 + 11 = (29989 + 10) + 1 from rfl,
      runLoop_go_moving (29989 + 10) 0 _ notStopped_c1]
  dsimp only [initSimState]
  simp only [simFrame]
  rw [emitKeyframePhase_neg _ (by
        norm_num [PHYSICS.TIME_STEP, PHYSICS.KEYFRAME_INTERVAL])]
  rw [integratePhase_c1 _ (by rfl)]
  rw [ballBallPhase_single _ (by rfl)]
  rw [pocketPhase_c1 _ (by rfl)]
  rw [cushionPhase_notInPlay _ (by
        intro b hb
        have hbb : b = c1PocketedBall := by simpa using hb
        subst hbb
        rfl)]
  dsimp only
  rw [show 29989 + 10 = (29989 + 9) + 1 from rfl,
      runLoop_go_settling (29989 + 9) _ _ allStopped_c1Pocketed
        (by norm_num [PHYSICS.SETTLE_FRAMES]),
      simFrame_dormant _ hd1 hs1,
      emitKeyframePhase_neg _ (by
        norm_num [PHYSICS.TIME_STEP, PHYSICS.KEYFRAME_INTERVAL])]
  dsimp only
  rw [show 29989 + 9 = (29989 + 8) + 1 from rfl,
      runLoop_go_settling (29989 + 8) _ _ allStopped_c1Pocketed
        (by norm_num [PHYSICS.SETTLE_FRAMES]),
      simFrame_dormant _ hd1 hs1,
      emitKeyframePhase_neg _ (by
        norm_num [PHYSICS.TIME_STEP, PHYSICS.KEYFRAME_INTERVAL])]
  dsimp only
  rw [show 29989 + 8 = (29989 + 7) + 1 from rfl,
      runLoop_go_settling (29989 + 7) _ _ allStopped_c1Pocketed
        (by norm_num [PHYSICS.SETTLE_FRAMES]),
      simFrame_dormant _ hd1 hs1,
      emitKeyframePhase_neg _ (by
        norm_num [PHYSICS.TIME_STEP, PHYSICS.KEYFRAME_INTERVAL])]
  dsimp only
  rw [show 29989 + 7 = (29989 + 6) + 1 from rfl,
      runLoop_go_settling (29989 + 6) _ _ allStopped_c1Pocketed
        (by norm_num [PHYSICS.SETTLE_FRAMES]),
      simFrame_dormant _ hd1 hs1,
      emitKeyframePhase_neg _ (by
        norm_num [PHYSICS.TIME_STEP, PHYSICS.KEYFRAME_INTERVAL])]
  dsimp only
  rw [show 29989 + 6 = (29989 + 5) + 1 from rfl,
      runLoop_go_settling (29989 + 5) _ _ allStopped_c1Pocketed
        (by norm_num [PHYSICS.SETTLE_FRAMES]),
      simFrame_dormant _ hd1 hs1,
      emitKeyframePhase_neg _ (by
        norm_num [PHYSICS.TIME_STEP, PHYSICS.KEYFRAME_INTERVAL])]
  dsimp only
  rw [show 29989 + 5 = (29989 + 4) + 1 from rfl,
      runLoop_go_settling (29989 + 4) _ _ allStopped_c1Pocketed
        (by norm_num [PHYSICS.SETTLE_FRAMES]),
      simFrame_dormant _ hd1 hs1,
      emitKeyframePhase_neg _ (by
        norm_num [PHYSICS.TIME_STEP, PHYSICS.KEYFRAME_INTERVAL])]
  dsimp only
  rw [show 29989 + 4 = (29989 + 3) + 1 from rfl,
      runLoop_go_settling (29989 + 3) _ _ allStopped_c1Pocketed
        (by norm_num [PHYSICS.SETTLE_FRAMES]),
      simFrame_dormant _ hd1 hs1,
      emitKeyframePhase_neg _ (by
        norm_num [PHYSICS.TIME_STEP, PHYSICS.KEYFRAME_INTERVAL])]
  dsimp only
  rw [show 29989 + 3 = (29989 + 2) + 1 from rfl,
      runLoop_go_settling (29989 + 2) _ _ allStopped_c1Pocketed
        (by norm_num [PHYSICS.SETTLE_FRAMES]),
      simFrame_dormant _ hd1 hs1,
      emitKeyframePhase_pos _ (by
        norm_num [PHYSICS.TIME_STEP, PHYSICS.KEYFRAME_INTERVAL])]
  dsimp only
  rw [show 29989 + 2 = (29989 + 1) + 1 from rfl,
      runLoop_go_settling (29989 + 1) _ _ allStopped_c1Pocketed
        (by norm_num [PHYSICS.SETTLE_FRAMES]),
      simFrame_dormant _ hd1 hs1,
      emitKeyframePhase_neg _ (by
        norm_num [PHYSICS.TIME_STEP, PHYSICS.KEYFRAME_INTERVAL])]
  dsimp only
  rw [runLoop_stop 29989 _ _ allStopped_c1Pocketed (by norm_num [PHYSICS.SETTLE_FRAMES])]
  rfl

/-- C1: code evaluation at the failing input. Aiming the in-play cue ball
straight down into the top-middle pocket at full power pockets it (the
ball_pocket event is recorded and the ball lands on pocketedBalls), but
every ball_pocket event in the returned keyframes carries speed 0, because
pocket capture zeroes the ball's velocity before reading it into the
event's speed field; the claim (and the repo's own test) requires a
ball_pocket event with speed strictly greater than 0. -/
theorem claim_C1_pocket_event_speed_zero :
    ∃ res, simulateShot c1State c1Shot = Except.ok res ∧
      res.summary.pocketedBalls = [BallId.cue] ∧
      (∃ kf ∈ res.keyframes, ∃ ev ∈ kf.events, ev.type = KFEventType.ball_pocket) ∧
      ∀ kf ∈ res.keyframes, ∀ ev ∈ kf.events,
        ev.type = KFEventType.ball_pocket → ¬ ev.speed > 0 := by
  have hok := simulateShot_ok c1State c1Shot
    { id := BallId.cue, pos := ⟨1.27, 0.087⟩, vel := ⟨0, 0⟩, inPlay := true,
      spin := ⟨0, 0⟩, hasHitBall := false, isRolling := false } rfl (by norm_num)
  refine ⟨_, hok, ?_, ?_, ?_⟩
  · rw [c1_run_eval]
    rfl
  · rw [c1_run_eval]
    refine ⟨{ createKeyframe (((8 : ℕ) : ℝ) * PHYSICS.TIME_STEP * 1000)
        [c1PocketedBall] with events := [c1PocketEvent] }, ?_, c1PocketEvent, ?_, rfl⟩
    · simp [simResultOf, c1FinalRunState]
    · simp
  · rw [c1_run_eval]
    intro kf hkf ev hev htype
    simp only [simResultOf, c1FinalRunState, List.mem_append, List.mem_singleton,
      List.mem_cons, List.not_mem_nil, or_false] at hkf
    rcases hkf with h | h <;> subst h
    · simp only [List.mem_singleton] at hev
      subst hev
      norm_num [c1PocketEvent]
    · simp only [createKeyframe] at hev
      simp at hev

/-- C4 witness: the simulator part instantiated at the resting-table shot
(its ok hypothesis discharged by the evaluated run), and the rules part at
the scratch state. -/
theorem claim_C4_pocketed_superset_witness :
    (simResultOf c9GoodState (runLoop PHYSICS.MAX_FRAMES 0
        (initSimState (initBalls c9GoodState zeroPowerShot)))).finalState.pocketed =
      c9GoodState.pocketed ++
        (simResultOf c9GoodState (runLoop PHYSICS.MAX_FRAMES 0
          (initSimState (initBalls c9GoodState zeroPowerShot)))).summary.pocketedBalls ∧
    (applyRulesFull c3State c3Summary).result.pocketed =
      (if c3State.phase = GamePhase.AWAITING_BREAK ∧
          BallId.num 8 ∈ c3Summary.pocketedBalls ∧ c3Summary.scratch = false ∧
          (c3State.balls.find? (fun b => decide (b.id = BallId.num 8))).isSome = true
        then c3State.pocketed.erase (BallId.num 8)
        else c3State.pocketed) :=
  ⟨claim_C4_pocketed_superset.1 c9GoodState zeroPowerShot _
      (simulateShot_ok c9GoodState zeroPowerShot
        { id := BallId.cue, pos := ⟨1.27, 0.635⟩, vel := ⟨0, 0⟩, inPlay := true,
          spin := ⟨0, 0⟩, hasHitBall := false, isRolling := false } rfl (by norm_num)),
    claim_C4_pocketed_superset.2 c3State c3Summary⟩
